import Mathlib

/-!
Verification development for the TOSCA-to-HOT translation engine
(`tacker/vnfm/infra_drivers/openstack/translate_template.py`).

The descriptor and template documents handled by the translator are nested
Python dictionaries produced by a YAML parser.  We embed them as a tagged
document tree `Val` (string / integer / boolean / sequence / mapping), with
mappings represented as insertion-ordered association lists, matching the
ordered dictionaries the source manipulates (Python dictionaries preserve
insertion order and have unique keys).  Serialization between text and
document (yaml.load / yaml.dump / jsonutils.dumps) is abstracted: templates
are carried as documents end to end.
-/

namespace TT

/-- Document values: the shape of the loosely typed nested maps the source
manipulates. -/
inductive Val where
  | str : String → Val
  | int : Int → Val
  | bool : Bool → Val
  | list : List Val → Val
  | map : List (String × Val) → Val

/-- Python `v == "s"` for a document value compared against a string literal
(equality against a string is `False` for every non-string value). -/
def isStrEq (v : Val) (s : String) : Bool :=
  match v with
  | .str t => t = s
  | _ => false

/-- Entries of a mapping value: an insertion-ordered association list. -/
abbrev Entries := List (String × Val)

/-- First binding for a key, like Python `d[k]` when it succeeds. -/
def dGet : Entries → String → Option Val
  | [], _ => none
  | (k, v) :: es, key => if k = key then some v else dGet es key

/-- Python `k in d`. -/
def hasKey (es : Entries) (k : String) : Bool :=
  (dGet es k).isSome

/-- Python `d[k] = v`: replaces the existing binding in place (keeping its
position), or appends a new binding at the end.  Python dictionaries have
unique keys, so replacing the first binding is the exact semantics. -/
def setKey : Entries → String → Val → Entries
  | [], k, v => [(k, v)]
  | (k2, v2) :: es, k, v =>
      if k2 = k then (k, v) :: es else (k2, v2) :: setKey es k v

/-- Python `d.pop(k)`: removes the binding for a key (unique in a Python
dictionary). -/
def delKey : Entries → String → Entries
  | [], _ => []
  | (k2, v2) :: es, k =>
      if k2 = k then delKey es k else (k2, v2) :: delKey es k

/-- Python `d.pop(k, default)`: value popped (or the default) and the
remaining entries. -/
def popD (es : Entries) (k : String) (d : Val) : Val × Entries :=
  match dGet es k with
  | some v => (v, delKey es k)
  | none => (d, es)

/-- Python `d.setdefault(k, v)` restricted to its effect on the mapping. -/
def setdefault (es : Entries) (k : String) (v : Val) : Entries :=
  if hasKey es k then es else es ++ [(k, v)]

/-- Python `d.update(new)`: existing keys keep their position, new keys are
appended in iteration order. -/
def dictUpdate (es new : Entries) : Entries :=
  new.foldl (fun acc kv => setKey acc kv.1 kv.2) es

/-- Python truthiness of a document value. -/
def truthy : Val → Bool
  | .str s => ¬ s = ""
  | .int i => ¬ i = 0
  | .bool b => b
  | .list vs => ¬ vs.isEmpty
  | .map es => ¬ es.isEmpty

/-- Python truthiness of `d.get(k)` (absent keys give `None`, which is falsy). -/
def truthyOpt : Option Val → Bool
  | none => false
  | some v => truthy v

/-- Python `str(v)` for the scalar values reachable in this development.
Container reprs are never consulted by the claims; they are rendered
structurally as a placeholder. -/
def pyStr : Val → String
  | .str s => s
  | .int i => toString i
  | .bool b => cond b "True" "False"
  | .list _ => "[...]"
  | .map _ => "\x7b...\x7d"

/-- Python `str(x)` where `x` came from `d.get(k)`: an absent key gives
`str(None) = "None"`. -/
def pyStrOpt : Option Val → String
  | none => "None"
  | some v => pyStr v

/-- Python `list(d.items())[0]` on a mapping value (`none` models the
IndexError / AttributeError cases). -/
def firstItem : Val → Option (String × Val)
  | .map (e :: _) => some e
  | _ => none

/-- Python `int(v)` for the coercions the source performs. -/
def pyInt : Val → Option Int
  | .int i => some i
  | .bool b => some (cond b 1 0)
  | .str s => s.toInt?
  | _ => none

/-- Whether a value is a mapping (`isinstance(value, dict)`). -/
def isMap : Val → Bool
  | .map _ => true
  | _ => false

/-- Failure conditions raised by the translator (`tacker.extensions.vnfm`
exception classes, plus the builtin Python errors its code can raise). -/
inductive TErr where
  | inputValuesMissing (key : String)
  | paramYAMLInputMissing
  | userDataFormatNotFound
  | ipAddrInvalidInput
  | keyError (key : String)
  | indexError
  | typeError
  | nameError
deriving DecidableEq

/-- Python `d[k]` raising `KeyError` on a missing key. -/
def need (es : Entries) (k : String) : Except TErr Val :=
  match dGet es k with
  | some v => .ok v
  | none => .error (.keyError k)

/-- Python `v[k]` on a value that must be a mapping. -/
def getKey (v : Val) (k : String) : Except TErr Val :=
  match v with
  | .map es => need es k
  | _ => .error .typeError

/-- Path lookup through nested mappings (used only to state theorems). -/
def getPath : Val → List String → Option Val
  | v, [] => some v
  | .map es, k :: ks =>
      match dGet es k with
      | some v => getPath v ks
      | none => none
  | _, _ :: _ => none

/-! ### Parameter Resolver (`_update_params`, lines 164-186)

The source tests `'get_input' not in str(value)` to skip subtrees without
placeholders.  `str(value)` is the Python repr of the nested dictionary, so
the marker occurs in it exactly when `"get_input"` occurs as a substring of
some nested key or string scalar (integer and boolean reprs cannot contain
it).  The substring test is spelled out on character lists so that it
evaluates definitionally. -/

/-- Whether the pattern is a prefix of the text (on character lists). -/
def leadsWith : List Char → List Char → Bool
  | [], _ => true
  | _ :: _, [] => false
  | c :: cs, d :: ds => c = d && leadsWith cs ds

/-- Whether the pattern occurs as a substring of the text. -/
def hasSub (pat : List Char) : List Char → Bool
  | [] => pat.isEmpty
  | c :: cs => leadsWith pat (c :: cs) || hasSub pat cs

/-- Python `'get_input' in s` for a string. -/
def strHasGetInput (s : String) : Bool :=
  hasSub "get_input".data s.data

/-- Python `'get_input' in str(value)` for a document value. -/
def containsGetInput : Val → Bool
  | .str s => strHasGetInput s
  | .int _ => false
  | .bool _ => false
  | .list [] => false
  | .list (v :: vs) => containsGetInput v || containsGetInput (.list vs)
  | .map [] => false
  | .map ((k, v) :: es) =>
      strHasGetInput k || containsGetInput v || containsGetInput (.map es)

/-- Python `pv[k]` when `pv` is a mapping (`key in paramvalues` then
`paramvalues[key]`); the source only reaches these lookups with mapping
operands on the inputs this development exercises. -/
def pvLookup (pv : Val) (k : String) : Option Val :=
  match pv with
  | .map es => dGet es k
  | _ => none

mutual

/-- Body of one iteration of the `for key, value in iteritems(original)` loop
of `_update_params`: the (possibly rewritten) value for this key, and the
missing-input key if the iteration raised `InputValuesMissing`.  The source
mutates `original[key]` in place and lets the exception escape, so a raised
error still leaves the already-applied edits in the returned value. -/
def updateParamsEntry (k : String) (v : Val) (pv : Val) (mtch : Bool) :
    Val × Option String :=
  match v with
  | .map inner =>
    if ¬ containsGetInput (.map inner) then (.map inner, none)
    else if ¬ mtch then
      match pvLookup pv k with
      | some pvk =>
        match pvLookup pvk "param" with
        | some pvparam =>
            match updateParamsEntries inner pvparam true with
            | (inner2, e) => (.map inner2, e)
        | none =>
            match updateParamsEntries inner pvk false with
            | (inner2, e) => (.map inner2, e)
      | none => (.map inner, some k)
    else
      match dGet inner "get_input" with
      | some (.str s) =>
          match pvLookup pv s with
          | some r => (r, none)
          | none => (.map inner, some k)
      | some _ => (.map inner, some k)
      | none =>
          match updateParamsEntries inner pv true with
          | (inner2, e) => (.map inner2, e)
  | other => (other, none)
termination_by sizeOf v

/-- The `_update_params` loop over the entries of a mapping: entries are
processed in order; the first raised missing-input error stops the loop,
leaving later entries untouched (and earlier ones possibly substituted). -/
def updateParamsEntries : Entries → Val → Bool → Entries × Option String
  | [], _, _ => ([], none)
  | (k, v) :: rest, pv, mtch =>
    match updateParamsEntry k v pv mtch with
    | (v2, none) =>
        match updateParamsEntries rest pv mtch with
        | (rest2, e) => ((k, v2) :: rest2, e)
    | (v2, some e) => ((k, v2) :: rest, some e)
termination_by es _ _ => sizeOf es

end

/-- Models `_update_params(original, paramvalues, match)`: returns the
document after the in-place edits together with the missing key of the
`InputValuesMissing` failure, if one was raised.  `original` is a mapping on
every call the source makes. -/
def updateParams (original pv : Val) (mtch : Bool) : Val × Option String :=
  match original with
  | .map es =>
      match updateParamsEntries es pv mtch with
      | (es2, e) => (.map es2, e)
  | v => (v, none)

/-! ### Scaling Expander (lines 39-51, 407-510)

`HEAT_TEMPLATE_BASE` parses to a one-key mapping; the unquoted YAML scalar
`2013-05-23` is kept as its literal text. -/

def SCALING_POLICY : String := "tosca.policies.tacker.Scaling"
def ALARMING_POLICY : String := "tosca.policies.tacker.Alarming"

def heatTemplateBase : Entries := [("heat_template_version", .str "2013-05-23")]

/-- Models `get_scaling_policy_name`: `'%s_scale_%s' % (policy_name, action)`. -/
def getScalingPolicyName (action policyName : String) : String :=
  policyName ++ "_scale_" ++ action

/-- Models `_get_scale_group_name`: the group name is hard-coded to `G1`. -/
def getScaleGroupName (_targets : Val) : String := "G1"

/-- Models `_convert_to_heat_scaling_group` (lines 441-461). -/
def convertToHeatScalingGroup (policyPrp : Entries) (scaleResourceType : String)
    (_name : String) : Except TErr Val :=
  match need policyPrp "min_instances" with
  | .error e => .error e
  | .ok mn =>
  match need policyPrp "max_instances" with
  | .error e => .error e
  | .ok mx =>
  match need policyPrp "default_instances" with
  | .error e => .error e
  | .ok dc =>
  match need policyPrp "cooldown" with
  | .error e => .error e
  | .ok cd =>
    .ok (.map [("type", .str "OS::Heat::AutoScalingGroup"),
               ("properties", .map [("min_size", mn), ("max_size", mx),
                                    ("desired_capacity", dc), ("cooldown", cd),
                                    ("resource", .map [("type", .str scaleResourceType)])])])

/-- Python `copy.deepcopy(res)` followed by
`res['properties'][k] = v` on a resource mapping that carries a
`properties` mapping. -/
def setResourceProp (res : Val) (k : String) (v : Val) : Val :=
  match res with
  | .map es =>
    match dGet es "properties" with
    | some (.map ps) => .map (setKey es "properties" (.map (setKey ps k v)))
    | _ => .map es
  | v0 => v0

/-- Models `_convert_to_heat_scaling_policy` (lines 475-510): returns the
`(resources, scaling_group_names)` pair.  Note the scale-in adjustment is the
formatted string `'-%d' % int(increment)`, not an integer. -/
def convertToHeatScalingPolicy (policyPrp : Entries) (scaleResourceType name : String) :
    Except TErr (Entries × Entries) :=
  match need policyPrp "targets" with
  | .error e => .error e
  | .ok targets =>
  match convertToHeatScalingGroup policyPrp scaleResourceType (getScaleGroupName targets) with
  | .error e => .error e
  | .ok groupHot =>
  match need policyPrp "cooldown" with
  | .error e => .error e
  | .ok cd =>
  match need policyPrp "increment" with
  | .error e => .error e
  | .ok inc =>
  match pyInt inc with
  | none => .error .typeError
  | some incInt =>
    let scaleGrp := getScaleGroupName targets
    let policyHot := Val.map [("type", .str "OS::Heat::ScalingPolicy"),
      ("properties", .map [("adjustment_type", .str "change_in_capacity"),
                           ("cooldown", cd),
                           ("scaling_adjustment", inc),
                           ("auto_scaling_group_id",
                            .map [("get_resource", .str scaleGrp)])])]
    let inValue := Val.str ("-" ++ toString incInt)
    let policyHotIn := setResourceProp policyHot "scaling_adjustment" inValue
    .ok ([(scaleGrp, groupHot),
          (getScalingPolicyName "out" name, policyHot),
          (getScalingPolicyName "in" name, policyHotIn)],
         [(name, .str scaleGrp)])

/-- Scan of a `policies` list: models the
`for policy_dict in ...: name, policy = list(policy_dict.items())[0]` loop
with its `break` on the first policy whose `type` equals `ty`.  Returns the
name, the policy body, and the whole one-entry wrapper mapping. -/
def scanPolicies (ty : String) : List Val → Except TErr (Option (String × Val × Val))
  | [] => .ok none
  | p :: rest =>
    match firstItem p with
    | none => .error .indexError
    | some (n, dt) =>
      match dt with
      | .map des =>
        match dGet des "type" with
        | some t => if isStrEq t ty then .ok (some (n, dt, p)) else scanPolicies ty rest
        | none => .error (.keyError "type")
      | _ => .error .typeError

/-- Models `_generate_hot_scaling` (lines 407-439): returns
`(is_scaling_needed, scaling_group_names, main template)`. -/
def generateHotScaling (vnfdDict : Entries) (scaleResourceType : String) :
    Except TErr (Bool × Entries × Entries) :=
  let t0 := setKey heatTemplateBase "description" (.str "Tacker scaling template")
  let t1 := setKey t0 "parameters" (.map [])
  let step : Except TErr (Entries × Entries) :=
    match dGet vnfdDict "policies" with
    | some (.list ps) =>
      match scanPolicies SCALING_POLICY ps with
      | .error e => .error e
      | .ok none => .ok ([], [])
      | .ok (some (n, dt, _)) =>
        match getKey dt "properties" with
        | .error e => .error e
        | .ok (.map prp) => convertToHeatScalingPolicy prp scaleResourceType n
        | .ok _ => .error .typeError
    | some _ => .error .typeError
    | none => .ok ([], [])
  match step with
  | .error e => .error e
  | .ok (resources, names) =>
      .ok (¬ resources.isEmpty, names, setKey t1 "resources" (.map resources))

/-! ### Port Synthesizer (lines 39-40, 204-289) -/

/-- The `HEAT_VERSION_INCOMPATIBILITY_MAP` constant. -/
def HEAT_VERSION_INCOMPATIBILITY_MAP : List (String × Entries) :=
  [("OS::Neutron::Port", [("port_security_enabled", .str "value_specs")])]

/-- Lookup in an unsupported-property map (used to state theorems). -/
def dGetU : List (String × Entries) → String → Option Entries
  | [], _ => none
  | (k, v) :: es, key => if k = key then some v else dGetU es key

/-- Substitute location recorded for a property of a resource type. -/
def lookupSub (u : List (String × Entries)) (res prop : String) : Option Val :=
  match dGetU u res with
  | some es => dGet es prop
  | none => none

/-- Models `_get_unsupported_resource_props` (lines 278-289): the heat client
is abstracted as its `resource_attr_support` capability probe.  For each
resource the whole property mapping is recorded whenever any of its
properties is unsupported (`unsupported_props.update(prop_dict)`). -/
def getUnsupportedResourceProps (support : String → String → Bool) :
    List (String × Entries) :=
  HEAT_VERSION_INCOMPATIBILITY_MAP.foldl
    (fun acc rp =>
      let unsupported : Entries :=
        if rp.2.any (fun p => ¬ support rp.1 p.1) then rp.2 else []
      if unsupported.isEmpty then acc else acc ++ [(rp.1, unsupported)])
    []

/-- Models `_make_port_dict` (lines 233-247). -/
def makePortDict (unsupportedProps : List (String × Entries)) : Val :=
  let props : Entries :=
    if ¬ unsupportedProps.isEmpty then
      [("value_specs", .map [("port_security_enabled", .bool false)])]
    else
      [("port_security_enabled", .bool false)]
  .map [("type", .str "OS::Neutron::Port"),
        ("properties", .map (setdefault props "fixed_ips" (.list [])))]

/-- Models `_make_mgmt_outputs_dict` (lines 249-260).  `template_dict['outputs']`
raises `KeyError` when absent. -/
def makeMgmtOutputsDict (vduId port : String) (templateDict : Entries) :
    Except TErr Entries :=
  match dGet templateDict "outputs" with
  | some (.map os) =>
      .ok (setKey templateDict "outputs" (.map (setKey os ("mgmt_ip-" ++ vduId)
        (.map [("description", .str "management ip address"),
               ("value", .map [("get_attr",
                  .list [.str port, .str "fixed_ips", .int 0, .str "ip_address"])])]))))
  | some _ => .error .typeError
  | none => .error (.keyError "outputs")

/-- Append the fixed-IP entries for the supplied address list
(`port_dict['properties']['fixed_ips'].append({"ip_address": ip})`). -/
def appendFixedIps (portDict : Val) (ipList : List Val) : Val :=
  match portDict with
  | .map es =>
    match dGet es "properties" with
    | some (.map ps) =>
      match dGet ps "fixed_ips" with
      | some (.list l) =>
          .map (setKey es "properties" (.map (setKey ps "fixed_ips"
            (.list (l ++ ipList.map (fun ip => .map [("ip_address", ip)]))))))
      | _ => .map es
    | _ => .map es
  | v => v

/-- Python `port_dict['properties'].update(network_param)`. -/
def updatePortProps (portDict : Val) (np : Entries) : Val :=
  match portDict with
  | .map es =>
    match dGet es "properties" with
    | some (.map ps) => .map (setKey es "properties" (.map (dictUpdate ps np)))
    | _ => .map es
  | v => v

/-- Models `_handle_port_creation` (lines 262-276).  `mgmt_flag` is the raw
popped value (the source tests its truthiness).  Returns the port resource
name and the updated template. -/
def handlePortCreation (vduId : String) (networkParam : Entries)
    (templateDict : Entries) (ipList : List Val) (mgmtFlag : Val)
    (unsupportedProps : List (String × Entries)) :
    Except TErr (String × Entries) :=
  match need networkParam "network" with
  | .error e => .error e
  | .ok network =>
    let port := vduId ++ "-" ++ pyStr network ++ "-port"
    let portDict := makePortDict unsupportedProps
    match (if truthy mgmtFlag then makeMgmtOutputsDict vduId port templateDict
           else .ok templateDict) with
    | .error e => .error e
    | .ok templateDict2 =>
      let portDict2 := updatePortProps (appendFixedIps portDict ipList) networkParam
      match dGet templateDict2 "resources" with
      | some (.map rs) =>
          .ok (port, setKey templateDict2 "resources" (.map (setKey rs port portDict2)))
      | some _ => .error .typeError
      | none => .error (.keyError "resources")

/-- Lines 212-220: the address-triggered creation branch of the interface
loop.  Returns the port name (if one was created), the mutated spec, the
updated template, and the number of `_handle_port_creation` invocations. -/
def ifaceAddressBranch (vduId : String) (es0 : Entries) (templateDict : Entries)
    (unsup : List (String × Entries)) :
    Except TErr (Option String × Entries × Entries × Nat) :=
  if hasKey es0 "addresses" then
    match popD es0 "addresses" (.list []) with
    | (ipListV, es) =>
      match ipListV with
      | .list ips =>
        match popD es "management" (.bool false) with
        | (mgmtV, es2) =>
          match handlePortCreation vduId es2 templateDict ips mgmtV unsup with
          | .error e => .error e
          | .ok (port, tmpl) => .ok (some port, es2, tmpl, 1)
      | _ => .error .ipAddrInvalidInput
  else .ok (none, es0, templateDict, 0)

/-- Lines 221-225: the management-triggered creation branch, which pops the
(possibly already consumed) management flag again and fires only when it is
still truthy. -/
def ifaceManagementBranch (vduId : String) (es1 : Entries) (tmpl1 : Entries)
    (unsup : List (String × Entries)) :
    Except TErr (Option String × Entries × Entries × Nat) :=
  match popD es1 "management" (.bool false) with
  | (mgmtV2, es2) =>
    if truthy mgmtV2 then
      match handlePortCreation vduId es2 tmpl1 [] (.bool true) unsup with
      | .error e => .error e
      | .ok (port, tmpl) => .ok (some port, es2, tmpl, 1)
    else .ok (none, es2, tmpl1, 0)

/-- Body of one iteration of the interface loop of
`_process_vdu_network_interfaces` (lines 210-230) for one interface spec.
Returns the mutated spec (the pops applied in place), the entry appended to
`networks_list`, the updated template, and the number of
`_handle_port_creation` invocations this iteration performed. -/
def processOneInterface (vduId : String) (np : Val) (templateDict : Entries)
    (unsup : List (String × Entries)) :
    Except TErr (Entries × Val × Entries × Nat) :=
  match np with
  | .map es0 =>
    match ifaceAddressBranch vduId es0 templateDict unsup with
    | .error e => .error e
    | .ok (portA, es1, tmpl1, n1) =>
      match ifaceManagementBranch vduId es1 tmpl1 unsup with
      | .error e => .error e
      | .ok (portB, es2, tmpl2, n2) =>
        let port := match portB with
          | some p => some p
          | none => portA
        let listEntry : Val := match port with
          | some p => .map [("port", .map [("get_resource", .str p)])]
          | none => .map es2
        .ok (es2, listEntry, tmpl2, n1 + n2)
  | _ => .error .typeError

/-- Models `_process_vdu_network_interfaces` (lines 204-231): iterates the
interface specs in order, building `networks_list`.  Returns the mutated
interface entries, the networks list, the updated template, and the total
number of port-creation invocations. -/
def processInterfaces (vduId : String) (unsup : List (String × Entries)) :
    Entries → Entries → Except TErr (Entries × List Val × Entries × Nat)
  | [], tmpl => .ok ([], [], tmpl, 0)
  | (k, np) :: rest, tmpl =>
    match processOneInterface vduId np tmpl unsup with
    | .error e => .error e
    | .ok (np2, entry, tmpl2, n) =>
      match processInterfaces vduId unsup rest tmpl2 with
      | .error e => .error e
      | .ok (rest2, entries2, tmpl3, m) =>
          .ok ((k, .map np2) :: rest2, entry :: entries2, tmpl3, n + m)

/-- Models `_process_vdu_network_interfaces` at the VDU level: consumes
`vdu_dict['network_interfaces']` (its values, in order), stores the networks
list under `properties['networks']`, and returns the mutated VDU mapping,
the updated properties and template, and the port-creation count. -/
def processVduNetworkInterfaces (vduId : String) (vduDict : Entries)
    (properties : Entries) (templateDict : Entries)
    (unsup : List (String × Entries)) :
    Except TErr (Entries × Entries × Entries × Nat) :=
  match need vduDict "network_interfaces" with
  | .error e => .error e
  | .ok (.map ifs) =>
    match processInterfaces vduId unsup ifs templateDict with
    | .error e => .error e
    | .ok (ifs2, networksList, tmpl2, n) =>
        .ok (setKey vduDict "network_interfaces" (.map ifs2),
             setKey properties "networks" (.list networksList),
             tmpl2, n)
  | .ok _ => .error .typeError

/-! ### Legacy Descriptor Translator (`_generate_hot_from_legacy`, lines 330-405)

The per-VDU loop is split into named stages so that theorems can hypothesize
the success of the stages they do not constrain.  `yaml.dump` serialization
is abstracted: the "template text" assigned inside the loop is carried as
the template document itself.  `jsonutils.dumps` of the per-unit
service-type metadata is likewise carried structurally. -/

/-- Accumulated state of the per-VDU loop. -/
structure LegacyState where
  template : Entries
  monitoring : Entries
  vnfAttrs : Entries
  /-- The `heat_template_yaml` local: bound only inside the loop (line 402),
  so it is `none` until at least one VDU has been processed. -/
  lastYaml : Option Entries

/-- Lines 349-352: `template_dict.setdefault('resources', {})[vdu_id] = ...`. -/
def vduResourceInit (template : Entries) (vduId : String) : Except TErr Entries :=
  match dGet template "resources" with
  | some (.map rs) =>
      .ok (setKey template "resources"
            (.map (setKey rs vduId (.map [("type", .str "OS::Nova::Server")]))))
  | some _ => .error .typeError
  | none =>
      .ok (setKey template "resources"
            (.map [(vduId, .map [("type", .str "OS::Nova::Server")])]))

/-- Lines 360-363: the network-interface stage (identity when the VDU has no
`network_interfaces` key). -/
def vduNetIfStage (vduId : String) (vdu : Entries) (template properties : Entries)
    (unsup : List (String × Entries)) : Except TErr (Entries × Entries × Entries) :=
  if hasKey vdu "network_interfaces" then
    match processVduNetworkInterfaces vduId vdu properties template unsup with
    | .error e => .error e
    | .ok (vdu2, props2, tmpl2, _) => .ok (vdu2, tmpl2, props2)
  else .ok (vdu, template, properties)

/-- Lines 364-368: the user-data pairing stage.  Both fields, in the order the
source copies them, or neither; a lone field raises `UserDataFormatNotFound`. -/
def vduUserDataStage (vdu properties : Entries) : Except TErr Entries :=
  match dGet vdu "user_data", dGet vdu "user_data_format" with
  | some d, some f =>
      .ok (setKey (setKey properties "user_data_format" f) "user_data" d)
  | some _, none => .error .userDataFormatNotFound
  | none, some _ => .error .userDataFormatNotFound
  | none, none => .ok properties

/-- Python `value[:255]` for the config-drive metadata values.  Slicing is
defined for strings and sequences; other values raise `TypeError`. -/
def pySlice255 : Val → Except TErr Val
  | .str s => .ok (.str (s.take 255))
  | .list vs => .ok (.list (vs.take 255))
  | _ => .error .typeError

/-- Truncate every metadata value with `value[:255]` (lines 377-378). -/
def truncEntries : Entries → Except TErr Entries
  | [] => .ok []
  | (k, v) :: rest =>
    match pySlice255 v with
    | .error e => .error e
    | .ok v2 =>
      match truncEntries rest with
      | .error e => .error e
      | .ok rest2 => .ok ((k, v2) :: rest2)

/-- Lines 369-380: placement zone, config-drive metadata (values truncated to
255), and key-pair name pass-throughs. -/
def vduOptionalStage (vdu properties : Entries) : Except TErr Entries :=
  let step1 : Entries :=
    match dGet vdu "placement_policy" with
    | some (.map pp) =>
        match dGet pp "availability_zone" with
        | some az => setKey properties "availability_zone" az
        | none => properties
    | _ => properties
  let step2E : Except TErr Entries :=
    match dGet vdu "config" with
    | some (.map cfg) =>
      match truncEntries (dictUpdate [] cfg) with
      | .error e => .error e
      | .ok md2 =>
          .ok (setKey (setKey step1 "config_drive" (.bool true)) "metadata" (.map md2))
    | some _ => .error .typeError
    | none => .ok step1
  match step2E with
  | .error e => .error e
  | .ok step2 =>
    match dGet vdu "key_name" with
    | some kn => .ok (setKey step2 "key_name" kn)
    | none => .ok step2

/-- Lines 382-394: the monitoring-policy stage.  A `ping`/`respawn` pair is
rewritten to the structured form; then any non-noop policy is written into
the monitoring document — note the source re-creates `monitoring_dict['vdus']`
from scratch for each VDU.  Returns the rewritten VDU mapping and the new
monitoring document. -/
def vduMonitoringStage (vduId : String) (vdu monitoring : Entries) :
    Except TErr (Entries × Entries) :=
  let mon := (dGet vdu "monitoring_policy").getD (.str "noop")
  let fail := (dGet vdu "failure_policy").getD (.str "noop")
  let vdu2 :=
    if isStrEq mon "ping" && isStrEq fail "respawn" then
      delKey (setKey vdu "monitoring_policy"
        (.map [("ping", .map [("actions", .map [("failure", .str "respawn")])])]))
        "failure_policy"
    else vdu
  if isStrEq mon "noop" then .ok (vdu2, monitoring)
  else
    match need vdu2 "monitoring_policy" with
    | .error e => .error e
    | .ok pol => .ok (vdu2, setKey monitoring "vdus" (.map [(vduId, pol)]))

/-- Lines 396-400: forward `service_type` to the plugin via the VNF
attributes (the serialized form is carried structurally). -/
def vduServiceTypeStage (vduId : String) (vdu vnfAttrs : Entries) : Entries :=
  match dGet vdu "service_type" with
  | some st => setKey vnfAttrs vduId (.map [("service_type", st)])
  | none => vnfAttrs

/-- One iteration of the `for vdu_id, vdu_dict in vnfd_dict.get('vdus', {}).items()`
loop (lines 349-402). -/
def processVdu (unsup : List (String × Entries)) (st : LegacyState)
    (vduId : String) (vduV : Val) : Except TErr LegacyState :=
  match vduV with
  | .map vdu =>
    match vduResourceInit st.template vduId with
    | .error e => .error e
    | .ok tmpl0 =>
    match need vdu "vm_image" with
    | .error e => .error e
    | .ok img =>
    match need vdu "instance_type" with
    | .error e => .error e
    | .ok flv =>
    match vduNetIfStage vduId vdu tmpl0 [("image", img), ("flavor", flv)] unsup with
    | .error e => .error e
    | .ok (vdu2, tmpl2, props2) =>
    match vduUserDataStage vdu2 props2 with
    | .error e => .error e
    | .ok props3 =>
    match vduOptionalStage vdu2 props3 with
    | .error e => .error e
    | .ok props4 =>
    match vduMonitoringStage vduId vdu2 st.monitoring with
    | .error e => .error e
    | .ok (vdu3, monitoring2) =>
      let attrs2 := vduServiceTypeStage vduId vdu3 st.vnfAttrs
      match dGet tmpl2 "resources" with
      | some (.map rs) =>
        let tmpl3 := setKey tmpl2 "resources"
          (.map (setKey rs vduId
            (.map [("type", .str "OS::Nova::Server"), ("properties", .map props4)])))
        .ok ⟨tmpl3, monitoring2, attrs2, some tmpl3⟩
      | _ => .error .typeError
  | _ => .error .typeError

/-- The translation output of the legacy path. -/
structure LegacyOut where
  heatTemplate : Entries
  monitoring : Entries
  vnfAttrs : Entries

/-- Models `_generate_hot_from_legacy` (lines 330-405).  `vnfdHasGetInput`
abstracts the raw-text check `'get_input' in self.vnfd_yaml`; `paramValues`
is the already-deserialized `param_values` override (`none` models an absent
or falsy override, which line 202 turns into `ParamYAMLInputMissing`; the
deserialization failure of the override text is outside this model). -/
def legacyBody (unsup : List (String × Entries)) (vnfd2 : Entries)
    (vnfAttrs0 : Entries) : Except TErr LegacyOut :=
  let template := setKey heatTemplateBase "outputs" (.map [])
  let template2 :=
    match dGet vnfd2 "description" with
    | some d => setKey template "description" d
    | none => template
  let vdusE : Except TErr Entries :=
    match dGet vnfd2 "vdus" with
    | some (.map es) => .ok es
    | some _ => .error .typeError
    | none => .ok []
  match vdusE with
  | .error e => .error e
  | .ok vdus =>
    match vdus.foldlM (fun st kv => processVdu unsup st kv.1 kv.2)
            ⟨template2, [], vnfAttrs0, none⟩ with
    | .error e => .error e
    | .ok st =>
      match st.lastYaml with
      | none => .error .nameError
      | some t => .ok ⟨t, st.monitoring, st.vnfAttrs⟩

def generateHotFromLegacy (unsup : List (String × Entries))
    (vnfdHasGetInput : Bool) (paramValues : Option Val)
    (vnfdDict : Entries) (vnfAttrs0 : Entries) : Except TErr LegacyOut :=
  let resolved : Except TErr Entries :=
    if vnfdHasGetInput then
      match paramValues with
      | none => .error .paramYAMLInputMissing
      | some pv =>
        match updateParamsEntries vnfdDict pv false with
        | (_, some k) => .error (.inputValuesMissing k)
        | (es, none) => .ok es
    else .ok vnfdDict
  match resolved with
  | .error e => .error e
  | .ok vnfd2 => legacyBody unsup vnfd2 vnfAttrs0

/-! ### Alarm Expander (lines 512-579) -/

/-- The VNF record as the alarm expander consumes it: its identity and its
attributes mapping. -/
structure Vnf where
  id : Val
  attributes : Entries

/-- Models `_convert_to_heat_monitoring_prop` (lines 560-579).  Note line 575:
`str(vnf['attributes'].get('alarm_url'))` turns an absent target into the
truthy string `"None"`. -/
def convertToHeatMonitoringProp (monPolicy : Val) (vnf : Vnf) : Except TErr Entries :=
  match firstItem monPolicy with
  | none => .error .indexError
  | some (_, monPolicyDict) =>
  match getKey monPolicyDict "triggers" with
  | .error e => .error e
  | .ok triggers =>
  match getKey triggers "resize_compute" with
  | .error e => .error e
  | .ok tplTrigger =>
  match getKey tplTrigger "condition" with
  | .error e => .error e
  | .ok tplCondition =>
  match getKey tplTrigger "metrics" with
  | .error e => .error e
  | .ok metrics =>
  match getKey tplCondition "comparison_operator" with
  | .error e => .error e
  | .ok cmp =>
  match getKey tplCondition "period" with
  | .error e => .error e
  | .ok period =>
  match getKey tplCondition "evaluations" with
  | .error e => .error e
  | .ok evals =>
  match getKey tplCondition "method" with
  | .error e => .error e
  | .ok method =>
  match getKey tplCondition "constraint" with
  | .error e => .error e
  | .ok constraint =>
  match getKey tplCondition "threshold" with
  | .error e => .error e
  | .ok threshold =>
    let properties : Entries :=
      [("meter_name", metrics), ("comparison_operator", cmp), ("period", period),
       ("evaluation_periods", evals), ("statistic", method),
       ("description", constraint), ("threshold", threshold)]
    let alarmUrl := pyStrOpt (dGet vnf.attributes "alarm_url")
    if ¬ alarmUrl = "" then
      .ok (setKey properties "alarm_actions" (.list [.str alarmUrl]))
    else .ok properties

/-- Lines 550-551: the nested assignment
`sub_heat_dict['resources']['VDU1']['properties']['metadata'] = md`. -/
def setVDU1Metadata (subHeat : Val) (md : Val) : Except TErr Val :=
  match subHeat with
  | .map es =>
    match dGet es "resources" with
    | some (.map rs) =>
      match dGet rs "VDU1" with
      | some (.map vs) =>
        match dGet vs "properties" with
        | some (.map ps) =>
            .ok (.map (setKey es "resources" (.map (setKey rs "VDU1"
                  (.map (setKey vs "properties" (.map (setKey ps "metadata" md))))))))
        | some _ => .error .typeError
        | none => .error (.keyError "properties")
      | some _ => .error .typeError
      | none => .error (.keyError "VDU1")
    | some _ => .error .typeError
    | none => .error (.keyError "resources")
  | _ => .error .typeError

/-- Models `_convert_to_heat_monitoring_resource` (lines 535-558): builds the
alarm resource and, when the topology also has a scaling policy, injects the
correlated metadata pair keyed by the VNF identity. -/
def convertToHeatMonitoringResource (monPolicy : Val) (vnf : Vnf)
    (subHeatDict : Val) (topologyTplDict : Entries) : Except TErr (Val × Val) :=
  match convertToHeatMonitoringProp monPolicy vnf with
  | .error e => .error e
  | .ok props =>
    let monPolicyHot := Val.map [("type", .str "OS::Aodh::Alarm"),
                                 ("properties", .map props)]
    match dGet topologyTplDict "policies" with
    | some (.list ps) =>
      match scanPolicies SCALING_POLICY ps with
      | .error e => .error e
      | .ok (some _) =>
        match setVDU1Metadata subHeatDict (.map [("metering.vnf_id", vnf.id)]) with
        | .error e => .error e
        | .ok subHeat2 =>
            .ok (setResourceProp monPolicyHot "matching_metadata"
                   (.map [("metadata.user_metadata.vnf_id", vnf.id)]),
                 subHeat2)
      | .ok none => .ok (monPolicyHot, subHeatDict)
    | some _ => .error .typeError
    | none => .ok (monPolicyHot, subHeatDict)

/-- Python `heat_dict['resources'].update(alarm_resource)`. -/
def updateResources (t : Val) (new : Entries) : Except TErr Val :=
  match t with
  | .map es =>
    match dGet es "resources" with
    | some (.map rs) => .ok (.map (setKey es "resources" (.map (dictUpdate rs new))))
    | some _ => .error .typeError
    | none => .error (.keyError "resources")
  | _ => .error .typeError

/-- Models `_generate_hot_alarm_resource` (lines 512-533).  The parse of the
current heat template text and the deepcopy for the sub-template are
abstracted over the template document.  Returns
`(is_enabled_alarm, alarm_resource, updated heat template, sub template)`. -/
def generateHotAlarmResource (topologyTplDict : Entries) (heatTemplate : Val)
    (vnf : Vnf) : Except TErr (Bool × Entries × Val × Val) :=
  match dGet topologyTplDict "policies" with
  | some (.list ps) =>
    match scanPolicies ALARMING_POLICY ps with
    | .error e => .error e
    | .ok (some (n, _dt, wrapper)) =>
      match convertToHeatMonitoringResource wrapper vnf heatTemplate topologyTplDict with
      | .error e => .error e
      | .ok (hot, sub2) =>
        match updateResources heatTemplate [(n, hot)] with
        | .error e => .error e
        | .ok heat2 => .ok (true, [(n, hot)], heat2, sub2)
    | .ok none => .ok (false, [], heatTemplate, heatTemplate)
  | some _ => .error .typeError
  | none => .ok (false, [], heatTemplate, heatTemplate)

/-! ### Orchestrator: `_handle_scaling` (lines 126-162) -/

/-- The per-run state `_handle_scaling` reads and writes: the output field
set, the VNF attributes, and `self.heat_template_yaml`. -/
structure RunState where
  fields : Entries
  vnfAttrs : Entries
  heatTemplateYaml : Val

/-- Models `_handle_scaling` for a parsed topology template.  Scaling
expansion runs first, then alarm expansion (which rewrites
`self.heat_template_yaml`); final assembly either repoints the output fields
to the main/sub pair, or persists the flat template only when no truthy
`heat_template` attribute exists yet (lines 160-161). -/
def handleScaling (topology : Entries) (vnfId : Val) (st : RunState) :
    Except TErr RunState :=
  match generateHotScaling topology "scaling.yaml" with
  | .error e => .error e
  | .ok (isScalingNeeded, scalingGroupNames, mainDict) =>
  match generateHotAlarmResource topology st.heatTemplateYaml ⟨vnfId, st.vnfAttrs⟩ with
  | .error e => .error e
  | .ok (isEnabledAlarm, alarmResource, heat2, subHeatTpl) =>
    let fields1 :=
      if isEnabledAlarm && ¬ isScalingNeeded then setKey st.fields "template" heat2
      else st.fields
    if isScalingNeeded then
      let mainE : Except TErr Entries :=
        if isEnabledAlarm then
          match dGet mainDict "resources" with
          | some (.map rs) =>
              .ok (setKey mainDict "resources" (.map (dictUpdate rs alarmResource)))
          | some _ => .error .typeError
          | none => .error (.keyError "resources")
        else .ok mainDict
      match mainE with
      | .error e => .error e
      | .ok mainDict2 =>
        let mainV := Val.map mainDict2
        let fields2 := setKey fields1 "template" mainV
        let fields3 := setKey fields2 "files"
          (.map [("scaling.yaml", if isEnabledAlarm then subHeatTpl else heat2)])
        let attrs1 := setKey st.vnfAttrs "heat_template" mainV
        let attrs2 := setKey attrs1 "scaling.yaml" heat2
        let attrs3 := setKey attrs2 "scaling_group_names" (.map scalingGroupNames)
        .ok ⟨fields3, attrs3, heat2⟩
    else
      if ¬ truthyOpt (dGet st.vnfAttrs "heat_template") then
        match need fields1 "template" with
        | .error e => .error e
        | .ok t => .ok ⟨fields1, setKey st.vnfAttrs "heat_template" t, heat2⟩
      else .ok ⟨fields1, st.vnfAttrs, heat2⟩

/-! ### Basic lemmas about the mapping operations -/


/-- Concrete scaling-policy properties used as inputs: a policy with
`increment = 1`. -/
def c1pol : Entries :=
  [("min_instances", .int 1), ("max_instances", .int 3),
   ("default_instances", .int 1), ("cooldown", .int 60),
   ("increment", .int 1), ("targets", .list [])]

/-- The scaling adjustment carried by a named resource of a resources
mapping (used to state theorems). -/
def scalingAdjOf (resources : Entries) (rname : String) : Option Val :=
  match dGet resources rname with
  | some r => getPath r ["properties", "scaling_adjustment"]
  | none => none

/-- A legacy VDU declaring the non-noop monitoring policy `ping` (with no
failure policy, so the `ping`/`respawn` rewrite does not fire). -/
def c3vdu : Entries :=
  [("vm_image", .str "img1"), ("instance_type", .str "m1.small"),
   ("monitoring_policy", .str "ping")]

/-- A legacy descriptor with two such VDUs. -/
def c3vnfd : Entries :=
  [("vdus", .map [("VDU1", .map c3vdu), ("VDU2", .map c3vdu)])]

/-- A realistic alarming-policy wrapper (`{name: policy}`) with a complete
trigger condition. -/
def c7mon : Val :=
  .map [("vdu1_cpu_usage_monitoring_policy", .map
    [("type", .str ALARMING_POLICY),
     ("triggers", .map [("resize_compute", .map
       [("metrics", .str "cpu_util"),
        ("condition", .map
          [("comparison_operator", .str "gt"), ("period", .int 600),
           ("evaluations", .int 1), ("method", .str "avg"),
           ("constraint", .str "utilization greater_than 50%"),
           ("threshold", .int 50)])])])])]

/-- A VNF whose attributes do not carry an `alarm_url`. -/
def c7vnf : Vnf := ⟨.str "vnf-1", []⟩

/-- A descriptor whose `A` section holds two placeholder leaves. -/
def c2doc : Val :=
  .map [("A", .map [("k1", .map [("get_input", .str "x")]),
                    ("k2", .map [("get_input", .str "y")])])]

/-- Caller-supplied values providing `x` (through a `param` wrapper) but
not `y`. -/
def c2pv : Val := .map [("A", .map [("param", .map [("x", .int 5)])])]

/-- What `_update_params` leaves behind on the failing run: `k1` already
substituted, `k2` untouched. -/
def c2mutated : Val :=
  .map [("A", .map [("k1", .int 5), ("k2", .map [("get_input", .str "y")])])]

/-- The initial template of the legacy path (lines 337-339). -/
def legacyBaseTemplate : Entries := setKey heatTemplateBase "outputs" (.map [])

/-- Whether a policy wrapper's (single) entry has the given `type`. -/
def policyTypeIs (ty : String) (p : Val) : Bool :=
  match firstItem p with
  | some (_, .map des) =>
    match dGet des "type" with
    | some t => isStrEq t ty
    | none => false
  | _ => false

/-- Whether a policy wrapper is shaped as the scan requires: a nonempty
mapping whose first entry is a mapping carrying a `type`. -/
def wellFormedPolicy (p : Val) : Bool :=
  match firstItem p with
  | some (_, .map des) => hasKey des "type"
  | _ => false

/-- A complete alarm policy body: type and resize-compute trigger. -/
def c6alarmBody : Val :=
  .map [("type", .str ALARMING_POLICY),
        ("triggers", .map [("resize_compute", .map
          [("metrics", .str "cpu_util"),
           ("condition", .map
             [("comparison_operator", .str "gt"), ("period", .int 600),
              ("evaluations", .int 1), ("method", .str "avg"),
              ("constraint", .str "utilization greater_than 50%"),
              ("threshold", .int 50)])])])]

/-- A topology with exactly one scaling and exactly one alarming policy. -/
def c6topo : Entries :=
  [("policies", .list
    [.map [("SP1", .map [("type", .str SCALING_POLICY),
                         ("properties", .map c1pol)])],
     .map [("vdu1_cpu_usage_monitoring_policy", c6alarmBody)]])]

/-- A flat heat template carrying the scalable unit `VDU1`. -/
def c6heat : Val :=
  .map [("resources", .map [("VDU1", .map
    [("type", .str "OS::Nova::Server"),
     ("properties", .map [("image", .str "img1")])])])]

/-- A legacy VDU carrying `user_data` but no `user_data_format`. -/
def c8vdu : Entries :=
  [("vm_image", .str "img1"), ("instance_type", .str "m1.small"),
   ("user_data", .str "#!/bin/sh")]

/-- A topology with an alarming policy and no scaling policy. -/
def c9topo : Entries :=
  [("policies", .list [.map [("vdu1_cpu_usage_monitoring_policy", c6alarmBody)]])]

/-- The alarm resource emitted for `c9topo` with no notification target. -/
def c9hot : Val :=
  .map [("type", .str "OS::Aodh::Alarm"),
        ("properties", .map
          [("meter_name", .str "cpu_util"), ("comparison_operator", .str "gt"),
           ("period", .int 600), ("evaluation_periods", .int 1),
           ("statistic", .str "avg"),
           ("description", .str "utilization greater_than 50%"),
           ("threshold", .int 50), ("alarm_actions", .list [.str "None"])])]
theorem dGet_setKey_self (es : Entries) (k : String) (v : Val) :
    dGet (setKey es k v) k = some v := by
  induction es with
  | nil => simp [setKey, dGet]
  | cons e es ih =>
    rcases e with ⟨k2, v2⟩
    by_cases h : k2 = k
    · simp [setKey, dGet, h]
    · simpa [setKey, dGet, h] using ih

theorem dGet_setKey_ne (es : Entries) (k j : String) (v : Val) (h : ¬ j = k) :
    dGet (setKey es j v) k = dGet es k := by
  induction es with
  | nil => simp [setKey, dGet, h]
  | cons e es ih =>
    rcases e with ⟨k2, v2⟩
    by_cases h1 : k2 = j
    · simp [setKey, dGet, h1, h]
    · rw [setKey, if_neg h1, dGet, dGet]
      split
      · rfl
      · exact ih

theorem dGet_delKey_self (es : Entries) (k : String) :
    dGet (delKey es k) k = none := by
  induction es with
  | nil => simp [delKey, dGet]
  | cons e es ih =>
    rcases e with ⟨k2, v2⟩
    by_cases h : k2 = k
    · simpa [delKey, dGet, h] using ih
    · simpa [delKey, dGet, h] using ih

theorem dGet_delKey_ne (es : Entries) (k j : String) (h : ¬ j = k) :
    dGet (delKey es j) k = dGet es k := by
  induction es with
  | nil => simp [delKey]
  | cons e es ih =>
    rcases e with ⟨k2, v2⟩
    by_cases h1 : k2 = j
    · rw [delKey, if_pos h1, ih, dGet, if_neg (by rw [h1]; exact h)]
    · rw [delKey, if_neg h1, dGet, dGet]
      split
      · rfl
      · exact ih

/-! ## Claims -/

/-- C1 counterexample: as stated, the claim fails.  For `increment = 1` the
scale-in resource's `scaling_adjustment` is the string `"-1"` (built by
`'-%d' % int(increment)` at line 504), which is not the integer `-1`. -/
theorem scale_in_adjustment_is_a_string :
    (convertToHeatScalingPolicy c1pol "scaling.yaml" "SP1").map
        (fun rn => scalingAdjOf rn.1 "SP1_scale_in") = .ok (some (.str "-1"))
    ∧ ¬ (Val.str "-1" = Val.int (-1)) := by
  refine ⟨rfl, ?_⟩
  intro h
  exact Val.noConfusion h

/-- C1 (amended): for every scaling policy whose increment is the positive
integer `I`, `_convert_to_heat_scaling_policy` emits the group resource plus
a scale-out policy with `scaling_adjustment` exactly `I` and a scale-in
policy identical to it except that `scaling_adjustment` is the decimal
string `"-I"`. -/
theorem scaling_policy_pair (I : Int) (hI : 0 < I) (pol : Entries)
    (tg mn mx dc cd : Val) (name srt : String)
    (htg : dGet pol "targets" = some tg)
    (hmn : dGet pol "min_instances" = some mn)
    (hmx : dGet pol "max_instances" = some mx)
    (hdc : dGet pol "default_instances" = some dc)
    (hcd : dGet pol "cooldown" = some cd)
    (hinc : dGet pol "increment" = some (.int I)) :
    convertToHeatScalingPolicy pol srt name = .ok
      ([("G1", .map [("type", .str "OS::Heat::AutoScalingGroup"),
          ("properties", .map [("min_size", mn), ("max_size", mx),
            ("desired_capacity", dc), ("cooldown", cd),
            ("resource", .map [("type", .str srt)])])]),
        (getScalingPolicyName "out" name, .map [("type", .str "OS::Heat::ScalingPolicy"),
          ("properties", .map [("adjustment_type", .str "change_in_capacity"),
            ("cooldown", cd), ("scaling_adjustment", .int I),
            ("auto_scaling_group_id", .map [("get_resource", .str "G1")])])]),
        (getScalingPolicyName "in" name, .map [("type", .str "OS::Heat::ScalingPolicy"),
          ("properties", .map [("adjustment_type", .str "change_in_capacity"),
            ("cooldown", cd), ("scaling_adjustment", .str ("-" ++ toString I)),
            ("auto_scaling_group_id", .map [("get_resource", .str "G1")])])])],
       [(name, .str "G1")]) := by
  simp [convertToHeatScalingPolicy, need, htg, hmn, hmx, hdc, hcd, hinc,
    convertToHeatScalingGroup, getScaleGroupName, getScalingPolicyName, pyInt,
    setResourceProp, setKey, hasKey, dGet]

/-- C1 witness: the amended theorem applied to the concrete policy `c1pol`. -/
theorem scaling_policy_pair_witness :
    convertToHeatScalingPolicy c1pol "scaling.yaml" "SP1" = .ok
      ([("G1", .map [("type", .str "OS::Heat::AutoScalingGroup"),
          ("properties", .map [("min_size", .int 1), ("max_size", .int 3),
            ("desired_capacity", .int 1), ("cooldown", .int 60),
            ("resource", .map [("type", .str "scaling.yaml")])])]),
        (getScalingPolicyName "out" "SP1", .map [("type", .str "OS::Heat::ScalingPolicy"),
          ("properties", .map [("adjustment_type", .str "change_in_capacity"),
            ("cooldown", .int 60), ("scaling_adjustment", .int 1),
            ("auto_scaling_group_id", .map [("get_resource", .str "G1")])])]),
        (getScalingPolicyName "in" "SP1", .map [("type", .str "OS::Heat::ScalingPolicy"),
          ("properties", .map [("adjustment_type", .str "change_in_capacity"),
            ("cooldown", .int 60), ("scaling_adjustment", .str ("-" ++ toString (1 : Int))),
            ("auto_scaling_group_id", .map [("get_resource", .str "G1")])])])],
       [("SP1", .str "G1")]) :=
  scaling_policy_pair 1 (by decide) c1pol (.list []) (.int 1) (.int 3) (.int 1)
    (.int 60) "SP1" "scaling.yaml" rfl rfl rfl rfl rfl rfl

/-- C3: both VDUs declare the non-noop policy `ping`, yet the returned
monitoring document keys only the last unit (`VDU2`) — line 393 re-creates
`monitoring_dict['vdus']` from scratch on every loop iteration, so each unit
overwrites all earlier entries. -/
theorem monitoring_document_keeps_last_unit_only :
    (generateHotFromLegacy [] false none c3vnfd []).map LegacyOut.monitoring
      = .ok [("vdus", .map [("VDU2", .str "ping")])] := rfl

/-- C7: with no notification target on the run, the alarm properties still
carry an action list — line 575 computes `str(None) = "None"`, which is
truthy, so `alarm_actions = ["None"]` is attached. -/
theorem alarm_actions_attached_without_target :
    convertToHeatMonitoringProp c7mon c7vnf = .ok
      [("meter_name", .str "cpu_util"), ("comparison_operator", .str "gt"),
       ("period", .int 600), ("evaluation_periods", .int 1),
       ("statistic", .str "avg"),
       ("description", .str "utilization greater_than 50%"),
       ("threshold", .int 50),
       ("alarm_actions", .list [.str "None"])] := rfl

/-! ### Lemmas about `_update_params` used by the remaining claims -/

theorem updateParamsEntries_nil (pv : Val) (m : Bool) :
    updateParamsEntries [] pv m = ([], none) := by
  rw [updateParamsEntries]

/-- Loop step when the iteration succeeds: the processed entry is prepended
and the loop continues on the tail. -/
theorem updateParamsEntries_cons_ok (k : String) (v v2 : Val) (rest : Entries)
    (pv : Val) (m : Bool) (h : updateParamsEntry k v pv m = (v2, none)) :
    updateParamsEntries ((k, v) :: rest) pv m
      = ((k, v2) :: (updateParamsEntries rest pv m).1,
         (updateParamsEntries rest pv m).2) := by
  rw [updateParamsEntries, h]

/-- Loop step when the iteration raises: the loop stops, keeping the partial
edit of the failing entry and the untouched tail. -/
theorem updateParamsEntries_cons_err (k : String) (v v2 : Val) (rest : Entries)
    (pv : Val) (m : Bool) (e : String)
    (h : updateParamsEntry k v pv m = (v2, some e)) :
    updateParamsEntries ((k, v) :: rest) pv m = ((k, v2) :: rest, some e) := by
  rw [updateParamsEntries, h]

/-- Entry step in keyed mode, descending through a `param` wrapper. -/
theorem updateParamsEntry_keyed_param (k : String) (inner : Entries)
    (pv pvk pvparam : Val)
    (h1 : containsGetInput (.map inner) = true)
    (h2 : pvLookup pv k = some pvk)
    (h3 : pvLookup pvk "param" = some pvparam) :
    updateParamsEntry k (.map inner) pv false
      = (.map (updateParamsEntries inner pvparam true).1,
         (updateParamsEntries inner pvparam true).2) := by
  simp [updateParamsEntry, h1, h2, h3]

/-- Entry step in keyed mode when the key is missing from the supplied
values: the `InputValuesMissing` failure, naming the key. -/
theorem updateParamsEntry_keyed_missing (k : String) (inner : Entries) (pv : Val)
    (h1 : containsGetInput (.map inner) = true)
    (h2 : pvLookup pv k = none) :
    updateParamsEntry k (.map inner) pv false = (.map inner, some k) := by
  simp [updateParamsEntry, h1, h2]

/-- Entry step in substitution mode on a placeholder leaf with a supplied
value: the leaf is replaced in place. -/
theorem updateParamsEntry_subst_found (k : String) (inner : Entries)
    (pv r : Val) (s : String)
    (h1 : containsGetInput (.map inner) = true)
    (h2 : dGet inner "get_input" = some (.str s))
    (h3 : pvLookup pv s = some r) :
    updateParamsEntry k (.map inner) pv true = (r, none) := by
  simp [updateParamsEntry, h1, h2, h3]

/-- Entry step in substitution mode on a placeholder leaf whose input value
is absent: the `InputValuesMissing` failure. -/
theorem updateParamsEntry_subst_missing (k : String) (inner : Entries)
    (pv : Val) (s : String)
    (h1 : containsGetInput (.map inner) = true)
    (h2 : dGet inner "get_input" = some (.str s))
    (h3 : pvLookup pv s = none) :
    updateParamsEntry k (.map inner) pv true = (.map inner, some k) := by
  simp [updateParamsEntry, h1, h2, h3]

/-- `_update_params` on a mapping document, in terms of the entry loop. -/
theorem updateParams_map_eq (es : Entries) (pv : Val) (m : Bool) :
    updateParams (.map es) pv m
      = (.map (updateParamsEntries es pv m).1, (updateParamsEntries es pv m).2) := by
  simp [updateParams]

/-- C2 counterexample: on `c2doc` with values `c2pv`, resolution fails with
the missing-input condition for `k2`, yet the document has already been
edited in place (`k1` was substituted before the failure), so the
descriptor is not left unchanged. -/
theorem resolution_mutates_before_failure :
    updateParams c2doc c2pv false = (c2mutated, some "k2")
    ∧ ¬ c2mutated = c2doc := by
  have hgi : strHasGetInput "get_input" = true := by decide
  have hk1 : strHasGetInput "k1" = false := by decide
  have cgi1 : containsGetInput (.map [("get_input", .str "x")]) = true := by
    rw [containsGetInput, hgi]; rfl
  have cgi2 : containsGetInput (.map [("get_input", .str "y")]) = true := by
    rw [containsGetInput, hgi]; rfl
  have cgiA : containsGetInput (.map [("k1", .map [("get_input", .str "x")]),
      ("k2", .map [("get_input", .str "y")])]) = true := by
    rw [containsGetInput, hk1, cgi1]; rfl
  have e1 := updateParamsEntry_subst_found "k1" [("get_input", .str "x")]
    (.map [("x", .int 5)]) (.int 5) "x" cgi1 rfl rfl
  have e2 := updateParamsEntry_subst_missing "k2" [("get_input", .str "y")]
    (.map [("x", .int 5)]) "y" cgi2 rfl rfl
  have t2 := updateParamsEntries_cons_err "k2" (.map [("get_input", .str "y")])
    (.map [("get_input", .str "y")]) [] (.map [("x", .int 5)]) true "k2" e2
  have tInner := updateParamsEntries_cons_ok "k1" (.map [("get_input", .str "x")])
    (.int 5) [("k2", .map [("get_input", .str "y")])] (.map [("x", .int 5)]) true e1
  rw [t2] at tInner
  have eA := updateParamsEntry_keyed_param "A"
    [("k1", .map [("get_input", .str "x")]), ("k2", .map [("get_input", .str "y")])]
    c2pv (.map [("param", .map [("x", .int 5)])]) (.map [("x", .int 5)])
    cgiA rfl rfl
  rw [tInner] at eA
  have tTop := updateParamsEntries_cons_err "A"
    (.map [("k1", .map [("get_input", .str "x")]), ("k2", .map [("get_input", .str "y")])])
    (.map [("k1", .int 5), ("k2", .map [("get_input", .str "y")])]) [] c2pv false "k2" eA
  constructor
  · show updateParams (.map [("A", .map [("k1", .map [("get_input", .str "x")]),
        ("k2", .map [("get_input", .str "y")])])]) c2pv false = _
    rw [updateParams_map_eq, tTop]
    rfl
  · intro h
    rw [c2mutated, c2doc] at h
    injection h with h
    injection h with h1 h2
    injection h1 with h3 h4
    injection h4 with h5
    injection h5 with h6 h7
    injection h6 with h8 h9
    exact Val.noConfusion h9

/-- C2 (amended): a missing-input failure aborts the loop at the failing
entry and is propagated to the caller naming the offending key — but the
entries processed before the failure keep their substitutions, and the
entries after it are returned untouched: resolution is not atomic. -/
theorem resolution_abort_keeps_earlier_edits (pre suf : Entries) (pv : Val)
    (m : Bool) (e : String)
    (hpre : (updateParamsEntries pre pv m).2 = none)
    (hsuf : (updateParamsEntries suf pv m).2 = some e) :
    updateParamsEntries (pre ++ suf) pv m
      = ((updateParamsEntries pre pv m).1 ++ (updateParamsEntries suf pv m).1,
         some e) := by
  induction pre with
  | nil =>
    rw [List.nil_append, updateParamsEntries_nil]
    rw [← hsuf]
    rfl
  | cons head rest ih =>
    rcases head with ⟨k, v⟩
    rcases hstep : updateParamsEntry k v pv m with ⟨v2, e2⟩
    cases e2 with
    | some err =>
      rw [updateParamsEntries_cons_err k v v2 rest pv m err hstep] at hpre
      exact absurd hpre (by simp)
    | none =>
      rw [updateParamsEntries_cons_ok k v v2 rest pv m hstep] at hpre
      have hrest : (updateParamsEntries rest pv m).2 = none := hpre
      rw [List.cons_append,
        updateParamsEntries_cons_ok k v v2 (rest ++ suf) pv m hstep,
        ih hrest,
        updateParamsEntries_cons_ok k v v2 rest pv m hstep]
      simp

/-- C2 amended-claim witness: a two-entry run where the first entry is
processed and the second fails; the theorem applied at it shows the abort
with the first entry's result retained and the error key propagated. -/
theorem resolution_abort_keeps_earlier_edits_witness :
    updateParamsEntries
        ([("p", .int 7)] ++ [("w", .map [("get_input", .str "z")])])
        (.map []) true
      = ([("p", .int 7)] ++ [("w", .map [("get_input", .str "z")])], some "w") := by
  have hgi : strHasGetInput "get_input" = true := by decide
  have cgz : containsGetInput (.map [("get_input", .str "z")]) = true := by
    rw [containsGetInput, hgi]; rfl
  have hp : updateParamsEntry "p" (.int 7) (.map []) true = (.int 7, none) := by
    rw [updateParamsEntry]
    intro a h
    exact Val.noConfusion h
  have hw := updateParamsEntry_subst_missing "w" [("get_input", .str "z")]
    (.map []) "z" cgz rfl rfl
  have hpre : (updateParamsEntries [("p", .int 7)] (.map []) true).2 = none := by
    rw [updateParamsEntries_cons_ok "p" (.int 7) (.int 7) [] (.map []) true hp]
    rw [updateParamsEntries_nil]
  have hsuf : (updateParamsEntries [("w", .map [("get_input", .str "z")])]
      (.map []) true).2 = some "w" := by
    rw [updateParamsEntries_cons_err "w" (.map [("get_input", .str "z")])
      (.map [("get_input", .str "z")]) [] (.map []) true "w" hw]
  rw [resolution_abort_keeps_earlier_edits [("p", .int 7)]
    [("w", .map [("get_input", .str "z")])] (.map []) true "w" hpre hsuf]
  rw [updateParamsEntries_cons_ok "p" (.int 7) (.int 7) [] (.map []) true hp,
    updateParamsEntries_nil,
    updateParamsEntries_cons_err "w" (.map [("get_input", .str "z")])
      (.map [("get_input", .str "z")]) [] (.map []) true "w" hw]

/-- The resolver replaces values in place: the key sequence of the processed
mapping is exactly that of the input. -/
theorem updateParamsEntries_keys (es : Entries) (pv : Val) (m : Bool) :
    ((updateParamsEntries es pv m).1).map Prod.fst = es.map Prod.fst := by
  induction es with
  | nil => simp [updateParamsEntries]
  | cons e rest ih =>
    rcases e with ⟨k, v⟩
    rw [updateParamsEntries]
    rcases h : updateParamsEntry k v pv m with ⟨v2, e2⟩
    rcases e2 with _ | err
    · rcases h2 : updateParamsEntries rest pv m with ⟨rest2, e3⟩
      rw [h2] at ih
      simpa using ih
    · simp

/-- A binding whose value is an empty mapping is never rewritten by the
resolver (an empty mapping contains no placeholder). -/
theorem updateParamsEntries_empty_map (es : Entries) (pv : Val) (m : Bool)
    (k : String) (h : dGet es k = some (.map [])) :
    dGet ((updateParamsEntries es pv m).1) k = some (.map []) := by
  induction es with
  | nil => simp [dGet] at h
  | cons e rest ih =>
    rcases e with ⟨k2, v2⟩
    by_cases hk : k2 = k
    · rw [dGet, if_pos hk] at h
      injection h with h
      subst h
      rw [updateParamsEntries]
      have hstep : updateParamsEntry k2 (.map []) pv m = (.map [], none) := by
        rw [updateParamsEntry]
        simp [containsGetInput]
      rw [hstep]
      rcases h2 : updateParamsEntries rest pv m with ⟨rest2, e3⟩
      simp [dGet, hk]
    · rw [dGet, if_neg hk] at h
      rw [updateParamsEntries]
      rcases hstep : updateParamsEntry k2 v2 pv m with ⟨v3, e2⟩
      rcases e2 with _ | err
      · rcases h2 : updateParamsEntries rest pv m with ⟨rest2, e3⟩
        rw [h2] at ih
        simpa [dGet, hk] using ih h
      · simpa [dGet, hk] using h

/-- A key absent from the input mapping is absent from the processed one. -/
theorem updateParamsEntries_absent (es : Entries) (pv : Val) (m : Bool)
    (k : String) (h : dGet es k = none) :
    dGet ((updateParamsEntries es pv m).1) k = none := by
  induction es with
  | nil => simp [updateParamsEntries, dGet]
  | cons e rest ih =>
    rcases e with ⟨k2, v2⟩
    by_cases hk : k2 = k
    · rw [dGet, if_pos hk] at h
      exact absurd h (by simp)
    · rw [dGet, if_neg hk] at h
      rw [updateParamsEntries]
      rcases hstep : updateParamsEntry k2 v2 pv m with ⟨v3, e2⟩
      rcases e2 with _ | err
      · rcases h2 : updateParamsEntries rest pv m with ⟨rest2, e3⟩
        rw [h2] at ih
        simpa [dGet, hk] using ih h
      · simpa [dGet, hk] using h

/-- The post-resolution body of the legacy translation ends in the unbound
`heat_template_yaml` local when the unit collection is absent or empty. -/
theorem legacyBody_empty_vdus (unsup : List (String × Entries))
    (vnfd2 attrs0 : Entries)
    (h : dGet vnfd2 "vdus" = none ∨ dGet vnfd2 "vdus" = some (.map [])) :
    legacyBody unsup vnfd2 attrs0 = .error .nameError := by
  rcases h with h | h <;>
    · rw [legacyBody]
      rw [h]
      rfl

/-- C10: for every legacy descriptor whose `vdus` collection is absent or
empty, the translation never returns a template — the loop never binds
`heat_template_yaml`, so line 404 raises an unbound-local name error
(provided the earlier placeholder stage did not already fail, which also
returns no template). -/
theorem empty_vdus_no_template (unsup : List (String × Entries))
    (attrs0 vnfd : Entries) (pvOpt : Option Val) (hasGI : Bool)
    (hvdus : dGet vnfd "vdus" = none ∨ dGet vnfd "vdus" = some (.map [])) :
    (∀ out, ¬ generateHotFromLegacy unsup hasGI pvOpt vnfd attrs0 = .ok out) ∧
    (hasGI = false →
      generateHotFromLegacy unsup hasGI pvOpt vnfd attrs0 = .error .nameError) ∧
    (∀ pv es, pvOpt = some pv → hasGI = true →
      updateParamsEntries vnfd pv false = (es, none) →
      generateHotFromLegacy unsup hasGI pvOpt vnfd attrs0 = .error .nameError) := by
  have key : ∀ vnfd2 : Entries,
      (dGet vnfd2 "vdus" = none ∨ dGet vnfd2 "vdus" = some (.map [])) →
      legacyBody unsup vnfd2 attrs0 = .error .nameError :=
    fun vnfd2 h2 => legacyBody_empty_vdus unsup vnfd2 attrs0 h2
  cases hasGI with
  | false =>
    refine ⟨?_, ?_, ?_⟩
    · intro out hout
      rw [generateHotFromLegacy.eq_def] at hout
      simp only [if_neg (by simp : ¬ (false : Bool) = true)] at hout
      rw [key vnfd hvdus] at hout
      exact Except.noConfusion hout
    · intro _
      rw [generateHotFromLegacy.eq_def]
      simp only [if_neg (by simp : ¬ (false : Bool) = true)]
      exact key vnfd hvdus
    · intro pv es _ hcontra
      exact absurd hcontra (by simp)
  | true =>
    refine ⟨?_, ?_, ?_⟩
    · intro out hout
      rw [generateHotFromLegacy.eq_def] at hout
      simp only [if_true] at hout
      cases pvOpt with
      | none => exact Except.noConfusion hout
      | some pv =>
        rcases hup : updateParamsEntries vnfd pv false with ⟨es2, e2⟩
        simp only [hup] at hout
        cases e2 with
        | none =>
          have h2 : dGet es2 "vdus" = none ∨ dGet es2 "vdus" = some (.map []) := by
            rcases hvdus with h | h
            · exact Or.inl (by
                have := updateParamsEntries_absent vnfd pv false "vdus" h
                rwa [hup] at this)
            · exact Or.inr (by
                have := updateParamsEntries_empty_map vnfd pv false "vdus" h
                rwa [hup] at this)
          simp only [] at hout
          rw [key es2 h2] at hout
          exact Except.noConfusion hout
        | some k => exact Except.noConfusion hout
    · intro hcontra
      exact absurd hcontra (by simp)
    · intro pv es hpv _ hup
      subst hpv
      rw [generateHotFromLegacy.eq_def]
      simp only [if_true]
      rw [hup]
      have h2 : dGet es "vdus" = none ∨ dGet es "vdus" = some (.map []) := by
        rcases hvdus with h | h
        · exact Or.inl (by
            have := updateParamsEntries_absent vnfd pv false "vdus" h
            rwa [hup] at this)
        · exact Or.inr (by
            have := updateParamsEntries_empty_map vnfd pv false "vdus" h
            rwa [hup] at this)
      exact key es h2

/-- C10 witness: the theorem applied to a descriptor carrying an empty
`vdus` mapping and no placeholders. -/
theorem empty_vdus_no_template_witness :
    generateHotFromLegacy [] false none [("vdus", .map [])] [] = .error .nameError :=
  (empty_vdus_no_template [] [] [("vdus", .map [])] none false
    (Or.inr rfl)).2.1 rfl

/-- C4: for every capability-probe outcome, the synthesized port disables
packet filtering either directly, or — exactly when the computed
Unsupported-Property Map records `port_security_enabled` as unsupported for
`OS::Neutron::Port` — nested under the substitute key that this map entry
itself records; and the map records the property exactly when the probe
denies support. -/
theorem port_security_follows_unsupported_map (support : String → String → Bool) :
    (∀ subk : String,
      lookupSub (getUnsupportedResourceProps support) "OS::Neutron::Port"
          "port_security_enabled" = some (.str subk) →
      makePortDict (getUnsupportedResourceProps support)
        = .map [("type", .str "OS::Neutron::Port"),
                ("properties", .map
                  [(subk, .map [("port_security_enabled", .bool false)]),
                   ("fixed_ips", .list [])])])
    ∧ (lookupSub (getUnsupportedResourceProps support) "OS::Neutron::Port"
          "port_security_enabled" = none →
      makePortDict (getUnsupportedResourceProps support)
        = .map [("type", .str "OS::Neutron::Port"),
                ("properties", .map
                  [("port_security_enabled", .bool false),
                   ("fixed_ips", .list [])])])
    ∧ (lookupSub (getUnsupportedResourceProps support) "OS::Neutron::Port"
          "port_security_enabled" = none
        ↔ support "OS::Neutron::Port" "port_security_enabled" = true) := by
  cases h : support "OS::Neutron::Port" "port_security_enabled" with
  | false =>
    have hu : getUnsupportedResourceProps support
        = [("OS::Neutron::Port", [("port_security_enabled", .str "value_specs")])] := by
      simp [getUnsupportedResourceProps, HEAT_VERSION_INCOMPATIBILITY_MAP, h]
    refine ⟨?_, ?_, ?_⟩
    · intro subk hs
      rw [hu] at hs
      have hs2 : (some (Val.str "value_specs") : Option Val) = some (Val.str subk) := hs
      have : Val.str "value_specs" = Val.str subk := by
        injection hs2
      have hsubk : subk = "value_specs" := by
        injection this with h2
        exact h2.symm
      subst hsubk
      rw [hu]
      rfl
    · intro hs
      rw [hu] at hs
      exact absurd hs (by simp [lookupSub, dGetU, dGet])
    · rw [hu]
      constructor
      · intro hs
        exact absurd hs (by simp [lookupSub, dGetU, dGet])
      · intro hs
        exact absurd hs (by simp)
  | true =>
    have hu : getUnsupportedResourceProps support = [] := by
      simp [getUnsupportedResourceProps, HEAT_VERSION_INCOMPATIBILITY_MAP, h]
    refine ⟨?_, ?_, ?_⟩
    · intro subk hs
      rw [hu] at hs
      exact absurd hs (by simp [lookupSub, dGetU])
    · intro _
      rw [hu]
      rfl
    · rw [hu]
      simp [lookupSub, dGetU]

/-- C4 witness: the theorem applied to the probe that denies support: the
substitute key nested form, with the key taken from the map entry. -/
theorem port_security_follows_unsupported_map_witness :
    makePortDict (getUnsupportedResourceProps (fun _ _ => false))
      = .map [("type", .str "OS::Neutron::Port"),
              ("properties", .map
                [("value_specs", .map [("port_security_enabled", .bool false)]),
                 ("fixed_ips", .list [])])] :=
  (port_security_follows_unsupported_map (fun _ _ => false)).1 "value_specs" rfl

/-! ### Lemmas about the interface branches (claim C5) -/

/-- Success analysis of the address branch: at most one creation; when the
branch fired, the spec it hands on has its management flag consumed; when
it could not fire, everything passes through unchanged. -/
theorem ifaceAddressBranch_ok (vduId : String) (es0 tmpl : Entries)
    (unsup : List (String × Entries)) (pA : Option String) (es1 t1 : Entries)
    (n1 : Nat)
    (h : ifaceAddressBranch vduId es0 tmpl unsup = .ok (pA, es1, t1, n1)) :
    n1 ≤ 1
    ∧ (hasKey es0 "addresses" = true → dGet es1 "management" = none ∧ n1 = 1)
    ∧ (hasKey es0 "addresses" = false
        → pA = none ∧ es1 = es0 ∧ t1 = tmpl ∧ n1 = 0) := by
  by_cases ha : hasKey es0 "addresses"
  · rw [ifaceAddressBranch, if_pos ha] at h
    rcases hget : dGet es0 "addresses" with _ | a
    · rw [hasKey, hget] at ha
      exact absurd ha (by simp)
    · simp only [popD, hget] at h
      cases a with
      | list ips =>
        rcases hm : dGet (delKey es0 "addresses") "management" with _ | m
        · simp only [popD, hm] at h
          rcases hpc : handlePortCreation vduId (delKey es0 "addresses") tmpl ips
              (.bool false) unsup with e | pr
          · rw [hpc] at h
            exact absurd h (by simp)
          · rw [hpc] at h
            rcases pr with ⟨port, t⟩
            injection h with h2
            injection h2 with hA h3
            injection h3 with hE h4
            injection h4 with hT hN
            subst hE
            subst hN
            refine ⟨by omega, fun _ => ⟨hm, rfl⟩, fun hf => absurd ha (by simp [hf])⟩
        · simp only [popD, hm] at h
          rcases hpc : handlePortCreation vduId (delKey (delKey es0 "addresses") "management")
              tmpl ips m unsup with e | pr
          · rw [hpc] at h
            exact absurd h (by simp)
          · rw [hpc] at h
            rcases pr with ⟨port, t⟩
            injection h with h2
            injection h2 with hA h3
            injection h3 with hE h4
            injection h4 with hT hN
            subst hE
            subst hN
            exact ⟨by omega, fun _ => ⟨dGet_delKey_self _ _, rfl⟩,
                   fun hf => absurd ha (by simp [hf])⟩
      | str s => exact absurd h (by simp)
      | int i => exact absurd h (by simp)
      | bool b => exact absurd h (by simp)
      | map es => exact absurd h (by simp)
  · rw [ifaceAddressBranch, if_neg ha] at h
    injection h with h2
    injection h2 with hA h3
    injection h3 with hE h4
    injection h4 with hT hN
    subst hA; subst hE; subst hT; subst hN
    exact ⟨by omega, fun ht => absurd ht (by simpa using ha), fun _ => ⟨rfl, rfl, rfl, rfl⟩⟩

/-- The management branch performs at most one creation. -/
theorem ifaceManagementBranch_ok (vduId : String) (es1 t1 : Entries)
    (unsup : List (String × Entries)) (pB : Option String) (es2 t2 : Entries)
    (n2 : Nat)
    (h : ifaceManagementBranch vduId es1 t1 unsup = .ok (pB, es2, t2, n2)) :
    n2 ≤ 1 := by
  rw [ifaceManagementBranch] at h
  rcases hm : dGet es1 "management" with _ | m
  · simp only [popD, hm] at h
    simp only [truthy] at h
    injection h with h2
    injection h2 with hB h3
    injection h3 with hE h4
    injection h4 with hT hN
    omega
  · simp only [popD, hm] at h
    by_cases ht : truthy m
    · rw [if_pos ht] at h
      rcases hpc : handlePortCreation vduId (delKey es1 "management") t1 [] (.bool true)
          unsup with e | pr
      · rw [hpc] at h
        exact absurd h (by simp)
      · rw [hpc] at h
        rcases pr with ⟨port, t⟩
        injection h with h2
        injection h2 with hB h3
        injection h3 with hE h4
        injection h4 with hT hN
        omega
    · rw [if_neg ht] at h
      injection h with h2
      injection h2 with hB h3
      injection h3 with hE h4
      injection h4 with hT hN
      omega

/-- When the management flag is already consumed, the management branch is a
no-op. -/
theorem ifaceManagementBranch_consumed (vduId : String) (es1 t1 : Entries)
    (unsup : List (String × Entries)) (hm : dGet es1 "management" = none) :
    ifaceManagementBranch vduId es1 t1 unsup = .ok (none, es1, t1, 0) := by
  rw [ifaceManagementBranch]
  simp only [popD, hm]
  rfl

/-- Symbolic success of `_handle_port_creation` with a truthy management
flag: the deterministic port name, the management output added to the
template's outputs, and the port resource added to its resources. -/
theorem handlePortCreation_mgmt_ok (vduId : String) (np tmpl : Entries)
    (ips : List Val) (mg nw : Val) (unsup : List (String × Entries))
    (outs rs : Entries)
    (hnw : dGet np "network" = some nw) (hmg : truthy mg = true)
    (houts : dGet tmpl "outputs" = some (.map outs))
    (hrs : dGet tmpl "resources" = some (.map rs)) :
    handlePortCreation vduId np tmpl ips mg unsup
      = .ok (vduId ++ "-" ++ pyStr nw ++ "-port",
             setKey (setKey tmpl "outputs"
                 (.map (setKey outs ("mgmt_ip-" ++ vduId)
                   (.map [("description", .str "management ip address"),
                          ("value", .map [("get_attr",
                            .list [.str (vduId ++ "-" ++ pyStr nw ++ "-port"),
                                   .str "fixed_ips", .int 0, .str "ip_address"])])]))))
               "resources"
               (.map (setKey rs (vduId ++ "-" ++ pyStr nw ++ "-port")
                 (updatePortProps (appendFixedIps (makePortDict unsup) ips) np)))) := by
  have hrs2 : dGet (setKey tmpl "outputs"
      (.map (setKey outs ("mgmt_ip-" ++ vduId)
        (.map [("description", .str "management ip address"),
               ("value", .map [("get_attr",
                 .list [.str (vduId ++ "-" ++ pyStr nw ++ "-port"),
                        .str "fixed_ips", .int 0, .str "ip_address"])])]))))
      "resources" = some (.map rs) := by
    rw [dGet_setKey_ne tmpl "resources" "outputs" _ (by decide)]
    exact hrs
  rw [handlePortCreation]
  simp only [need, hnw, hmg, if_true, makeMgmtOutputsDict, houts, hrs2]

/-- C5: the interface loop creates at most one port resource per interface
spec; in particular, when a spec carries both an address list and a truthy
management flag, the address-triggered branch fires once with the
management flag consumed (both keys popped from the spec), and the separate
management-triggered branch does not fire again — the appended entry is a
single port reference. -/
theorem at_most_one_port_per_interface :
    (∀ (vduId : String) (np : Val) (tmpl : Entries)
       (unsup : List (String × Entries)) (np2 : Entries) (entry : Val)
       (t : Entries) (n : Nat),
       processOneInterface vduId np tmpl unsup = .ok (np2, entry, t, n) → n ≤ 1)
    ∧ (∀ (vduId : String) (es0 tmpl : Entries) (unsup : List (String × Entries))
         (ips : List Val) (mg nw : Val) (outs rs : Entries),
        dGet es0 "addresses" = some (.list ips) →
        dGet es0 "management" = some mg →
        truthy mg = true →
        dGet es0 "network" = some nw →
        dGet tmpl "outputs" = some (.map outs) →
        dGet tmpl "resources" = some (.map rs) →
        ∃ t' : Entries,
          processOneInterface vduId (.map es0) tmpl unsup
            = .ok (delKey (delKey es0 "addresses") "management",
                   .map [("port", .map [("get_resource",
                      .str (vduId ++ "-" ++ pyStr nw ++ "-port"))])],
                   t', 1)) := by
  constructor
  · intro vduId np tmpl unsup np2 entry t n h
    cases np with
    | map es0 =>
      rw [processOneInterface] at h
      rcases hb1 : ifaceAddressBranch vduId es0 tmpl unsup with e | r1
      · rw [hb1] at h
        exact absurd h (by simp)
      · rcases r1 with ⟨pA, es1, t1, n1⟩
        simp only [hb1] at h
        rcases hb2 : ifaceManagementBranch vduId es1 t1 unsup with e | r2
        · simp only [hb2] at h
          exact absurd h (by simp)
        · rcases r2 with ⟨pB, es2, t2, n2⟩
          rw [hb2] at h
          have ha := ifaceAddressBranch_ok vduId es0 tmpl unsup pA es1 t1 n1 hb1
          have hbn := ifaceManagementBranch_ok vduId es1 t1 unsup pB es2 t2 n2 hb2
          injection h with h2
          injection h2 with hE1 h3
          injection h3 with hE2 h4
          injection h4 with hE3 hN
          by_cases haddr : hasKey es0 "addresses"
          · have hcons := (ha.2.1 haddr).1
            rw [ifaceManagementBranch_consumed vduId es1 t1 unsup hcons] at hb2
            injection hb2 with hb3
            injection hb3 with hB h5
            injection h5 with hE4 h6
            injection h6 with hT hN2
            omega
          · have hz := ha.2.2 (by simpa using haddr)
            omega
    | str s => simp [processOneInterface] at h
    | int i => simp [processOneInterface] at h
    | bool b => simp [processOneInterface] at h
    | list vs => simp [processOneInterface] at h
  · intro vduId es0 tmpl unsup ips mg nw outs rs haddr hmgmt htruthy hnw houts hrs
    have hnw2 : dGet (delKey (delKey es0 "addresses") "management") "network" = some nw := by
      rw [dGet_delKey_ne _ _ "management" (by decide),
          dGet_delKey_ne _ _ "addresses" (by decide)]
      exact hnw
    obtain ⟨T, hpc⟩ : ∃ T : Entries,
        handlePortCreation vduId (delKey (delKey es0 "addresses") "management")
          tmpl ips mg unsup
          = .ok (vduId ++ "-" ++ pyStr nw ++ "-port", T) :=
      ⟨_, handlePortCreation_mgmt_ok vduId
        (delKey (delKey es0 "addresses") "management") tmpl ips mg nw unsup outs rs
        hnw2 htruthy houts hrs⟩
    have hb1 : ifaceAddressBranch vduId es0 tmpl unsup
        = .ok (some (vduId ++ "-" ++ pyStr nw ++ "-port"),
               delKey (delKey es0 "addresses") "management", T, 1) := by
      have hmg2 : dGet (delKey es0 "addresses") "management" = some mg := by
        rw [dGet_delKey_ne es0 "management" "addresses" (by decide)]
        exact hmgmt
      rw [ifaceAddressBranch, if_pos (by rw [hasKey, haddr]; rfl)]
      simp only [popD, haddr, hmg2, hpc]
    refine ⟨T, ?_⟩
    simp only [processOneInterface, hb1,
      ifaceManagementBranch_consumed vduId _ T unsup (dGet_delKey_self _ _)]

/-- C5 witness: an interface spec carrying both an address list and a truthy
management flag yields exactly one creation, a single port-reference entry,
and a spec with both keys consumed (the resulting template component is
projected away). -/
theorem at_most_one_port_per_interface_witness :
    Except.map (fun r : Entries × Val × Entries × Nat => (r.1, r.2.1, r.2.2.2))
      (processOneInterface "VDU1"
        (.map [("network", .str "net0"), ("addresses", .list [.str "10.0.0.5"]),
               ("management", .bool true)])
        [("outputs", .map []), ("resources", .map [])] [])
      = .ok ([("network", .str "net0")],
             .map [("port", .map [("get_resource", .str "VDU1-net0-port")])], 1) := by
  obtain ⟨t2, ht⟩ := at_most_one_port_per_interface.2 "VDU1"
    [("network", .str "net0"), ("addresses", .list [.str "10.0.0.5"]),
     ("management", .bool true)]
    [("outputs", .map []), ("resources", .map [])] []
    [.str "10.0.0.5"] (.bool true) (.str "net0") [] []
    rfl rfl rfl rfl rfl rfl
  rw [ht]
  rfl

/-! ### Lemmas for the user-data pairing (claim C8) -/

/-- A lone user-data field makes the stage raise `UserDataFormatNotFound`. -/
theorem vduUserDataStage_lone (vdu props : Entries)
    (h : (hasKey vdu "user_data" = true ∧ hasKey vdu "user_data_format" = false)
       ∨ (hasKey vdu "user_data" = false ∧ hasKey vdu "user_data_format" = true)) :
    vduUserDataStage vdu props = .error .userDataFormatNotFound := by
  rcases hd : dGet vdu "user_data" with _ | d <;>
    rcases hf : dGet vdu "user_data_format" with _ | f
  · rcases h with ⟨h1, _⟩ | ⟨_, h2⟩
    · rw [hasKey, hd] at h1
      exact absurd h1 (by simp)
    · rw [hasKey, hf] at h2
      exact absurd h2 (by simp)
  · rw [vduUserDataStage, hd, hf]
  · rw [vduUserDataStage, hd, hf]
  · rcases h with ⟨_, h2⟩ | ⟨h1, _⟩
    · rw [hasKey, hf] at h2
      exact absurd h2 (by simp)
    · rw [hasKey, hd] at h1
      exact absurd h1 (by simp)

/-- C8: for every legacy compute unit whose earlier stages succeed, a lone
user-data field aborts the unit's processing with `UserDataFormatNotFound`
(and a one-unit descriptor then fails as a whole, producing no template);
with both fields present both are copied onto the compute properties, and
with neither present the properties are untouched. -/
theorem user_data_pair_or_neither (unsup : List (String × Entries))
    (t0 mon attrs : Entries) (last : Option Entries) (vduId : String)
    (vdu : Entries) (img flv : Val) (tmpl1 : Entries)
    (vdu2 tmpl2 props2 : Entries)
    (hres : vduResourceInit t0 vduId = .ok tmpl1)
    (himg : dGet vdu "vm_image" = some img)
    (hflv : dGet vdu "instance_type" = some flv)
    (hnet : vduNetIfStage vduId vdu tmpl1 [("image", img), ("flavor", flv)] unsup
              = .ok (vdu2, tmpl2, props2)) :
    ((hasKey vdu2 "user_data" = true ∧ hasKey vdu2 "user_data_format" = false)
       ∨ (hasKey vdu2 "user_data" = false ∧ hasKey vdu2 "user_data_format" = true) →
      processVdu unsup ⟨t0, mon, attrs, last⟩ vduId (.map vdu)
        = .error .userDataFormatNotFound)
    ∧ (∀ (props : Entries) (d f : Val),
        dGet vdu2 "user_data" = some d → dGet vdu2 "user_data_format" = some f →
        vduUserDataStage vdu2 props
          = .ok (setKey (setKey props "user_data_format" f) "user_data" d))
    ∧ (∀ props : Entries,
        dGet vdu2 "user_data" = none → dGet vdu2 "user_data_format" = none →
        vduUserDataStage vdu2 props = .ok props)
    ∧ ((hasKey vdu2 "user_data" = true ∧ hasKey vdu2 "user_data_format" = false)
       ∨ (hasKey vdu2 "user_data" = false ∧ hasKey vdu2 "user_data_format" = true) →
      t0 = legacyBaseTemplate →
      ∀ pvOpt attrs0, attrs = attrs0 → mon = [] → last = none →
      generateHotFromLegacy unsup false pvOpt [("vdus", .map [(vduId, .map vdu)])] attrs0
        = .error .userDataFormatNotFound) := by
  have hA : (hasKey vdu2 "user_data" = true ∧ hasKey vdu2 "user_data_format" = false)
       ∨ (hasKey vdu2 "user_data" = false ∧ hasKey vdu2 "user_data_format" = true) →
      processVdu unsup ⟨t0, mon, attrs, last⟩ vduId (.map vdu)
        = .error .userDataFormatNotFound := by
    intro hone
    rw [processVdu]
    simp only [hres, need, himg, hflv, hnet, vduUserDataStage_lone vdu2 props2 hone]
  refine ⟨hA, ?_, ?_, ?_⟩
  · intro props d f hd hf
    rw [vduUserDataStage, hd, hf]
  · intro props hd hf
    rw [vduUserDataStage, hd, hf]
  · intro hone ht0 pvOpt attrs0 hattrs hmon hlast
    subst ht0; subst hattrs; subst hmon; subst hlast
    have herr := hA hone
    rw [generateHotFromLegacy.eq_def]
    simp only [if_neg (by simp : ¬ (false : Bool) = true)]
    rw [legacyBody]
    rw [show dGet [("vdus", Val.map [(vduId, Val.map vdu)])] "description" = none by
      rw [dGet, if_neg (by decide)]; rfl]
    rw [show dGet [("vdus", Val.map [(vduId, Val.map vdu)])] "vdus"
        = some (Val.map [(vduId, Val.map vdu)]) by
      rw [dGet, if_pos rfl]]
    simp only [List.foldlM_cons, List.foldlM_nil,
      show setKey heatTemplateBase "outputs" (Val.map []) = legacyBaseTemplate from rfl,
      herr]
    rfl

/-! ### Lemmas for the alarm/scaling correlation (claim C6) -/

/-- A well-formed policies list containing a policy of the wanted type makes
the scan find one. -/
theorem scanPolicies_found (ty : String) (ps : List Val)
    (hwf : ∀ p ∈ ps, wellFormedPolicy p = true)
    (hmem : ∃ p ∈ ps, policyTypeIs ty p = true) :
    ∃ n dt w, scanPolicies ty ps = .ok (some (n, dt, w)) := by
  induction ps with
  | nil => rcases hmem with ⟨p, hp, _⟩; cases hp
  | cons p rest ih =>
    have hwfp := hwf p (by simp)
    rcases hfi : firstItem p with _ | nd
    · simp [wellFormedPolicy, hfi] at hwfp
    · rcases nd with ⟨n, dv⟩
      cases dv with
      | map des =>
        simp only [wellFormedPolicy, hfi] at hwfp
        rcases ht : dGet des "type" with _ | t
        · rw [hasKey, ht] at hwfp
          exact absurd hwfp (by simp)
        · by_cases hty : isStrEq t ty
          · refine ⟨n, .map des, p, ?_⟩
            rw [scanPolicies, hfi]
            simp only [ht, if_pos hty]
          · have hnot : policyTypeIs ty p = false := by
              simp only [policyTypeIs, hfi, ht]
              simpa using hty
            rcases hmem with ⟨q, hq, hqty⟩
            rcases List.mem_cons.mp hq with rfl | hq2
            · rw [hnot] at hqty
              exact absurd hqty (by simp)
            · obtain ⟨n2, dt2, w2, hscan⟩ :=
                ih (fun r hr => hwf r (List.mem_cons_of_mem p hr)) ⟨q, hq2, hqty⟩
              refine ⟨n2, dt2, w2, ?_⟩
              rw [scanPolicies, hfi]
              simp only [ht, if_neg hty]
              exact hscan
      | str s => simp [wellFormedPolicy, hfi] at hwfp
      | int i => simp [wellFormedPolicy, hfi] at hwfp
      | bool b => simp [wellFormedPolicy, hfi] at hwfp
      | list vs => simp [wellFormedPolicy, hfi] at hwfp

/-- A successful nested metadata assignment implies the sub-template shape
the source indexes through. -/
theorem setVDU1Metadata_shape (s md s2 : Val)
    (h : setVDU1Metadata s md = .ok s2) :
    ∃ es rs, s = .map es ∧ dGet es "resources" = some (.map rs) := by
  cases s with
  | map es =>
    rcases hr : dGet es "resources" with _ | rv
    · simp [setVDU1Metadata, hr] at h
    · cases rv with
      | map rs => exact ⟨es, rs, rfl, hr⟩
      | str v => simp [setVDU1Metadata, hr] at h
      | int v => simp [setVDU1Metadata, hr] at h
      | bool v => simp [setVDU1Metadata, hr] at h
      | list v => simp [setVDU1Metadata, hr] at h
  | str v => simp [setVDU1Metadata] at h
  | int v => simp [setVDU1Metadata] at h
  | bool v => simp [setVDU1Metadata] at h
  | list v => simp [setVDU1Metadata] at h

/-- After a successful nested metadata assignment, the metadata sits at the
assigned path of the resulting sub-template. -/
theorem setVDU1Metadata_path (s md s2 : Val)
    (h : setVDU1Metadata s md = .ok s2) :
    getPath s2 ["resources", "VDU1", "properties", "metadata"] = some md := by
  cases s with
  | map es =>
    rcases hr : dGet es "resources" with _ | rv
    · simp [setVDU1Metadata, hr] at h
    · cases rv with
      | map rs =>
        rcases hv : dGet rs "VDU1" with _ | vv
        · simp [setVDU1Metadata, hr, hv] at h
        · cases vv with
          | map vs =>
            rcases hp : dGet vs "properties" with _ | pv
            · simp [setVDU1Metadata, hr, hv, hp] at h
            · cases pv with
              | map psv =>
                simp only [setVDU1Metadata, hr, hv, hp] at h
                injection h with h
                subst h
                simp only [getPath, dGet_setKey_self]
              | str v => simp [setVDU1Metadata, hr, hv, hp] at h
              | int v => simp [setVDU1Metadata, hr, hv, hp] at h
              | bool v => simp [setVDU1Metadata, hr, hv, hp] at h
              | list v => simp [setVDU1Metadata, hr, hv, hp] at h
          | str v => simp [setVDU1Metadata, hr, hv] at h
          | int v => simp [setVDU1Metadata, hr, hv] at h
          | bool v => simp [setVDU1Metadata, hr, hv] at h
          | list v => simp [setVDU1Metadata, hr, hv] at h
      | str v => simp [setVDU1Metadata, hr] at h
      | int v => simp [setVDU1Metadata, hr] at h
      | bool v => simp [setVDU1Metadata, hr] at h
      | list v => simp [setVDU1Metadata, hr] at h
  | str v => simp [setVDU1Metadata] at h
  | int v => simp [setVDU1Metadata] at h
  | bool v => simp [setVDU1Metadata] at h
  | list v => simp [setVDU1Metadata] at h

/-- C6: in a topology with exactly one scaling policy and exactly one
alarming policy, the emitted alarm resource's matching-metadata and the
metadata injected into the scalable unit (`VDU1`) of the sub-template both
carry the same service-instance identity `vnf.id`. -/
theorem alarm_metadata_round_trip (ps : List Val) (topo : Entries) (vnf : Vnf)
    (heatTemplate : Val) (an : String) (adt aw : Val) (props : Entries)
    (sub2 : Val)
    (htopo : dGet topo "policies" = some (.list ps))
    (hwf : ∀ p ∈ ps, wellFormedPolicy p = true)
    (hscal : ps.countP (policyTypeIs SCALING_POLICY) = 1)
    (halarm : ps.countP (policyTypeIs ALARMING_POLICY) = 1)
    (hscan : scanPolicies ALARMING_POLICY ps = .ok (some (an, adt, aw)))
    (hprops : convertToHeatMonitoringProp aw vnf = .ok props)
    (hsub : setVDU1Metadata heatTemplate (.map [("metering.vnf_id", vnf.id)])
              = .ok sub2) :
    ∃ heat2 : Val,
      generateHotAlarmResource topo heatTemplate vnf
        = .ok (true,
               [(an, Val.map [("type", Val.str "OS::Aodh::Alarm"),
                  ("properties", Val.map (setKey props "matching_metadata"
                    (Val.map [("metadata.user_metadata.vnf_id", vnf.id)])))])],
               heat2, sub2)
      ∧ getPath (Val.map [("type", Val.str "OS::Aodh::Alarm"),
            ("properties", Val.map (setKey props "matching_metadata"
              (Val.map [("metadata.user_metadata.vnf_id", vnf.id)])))])
          ["properties", "matching_metadata"]
          = some (.map [("metadata.user_metadata.vnf_id", vnf.id)])
      ∧ getPath sub2 ["resources", "VDU1", "properties", "metadata"]
          = some (.map [("metering.vnf_id", vnf.id)]) := by
  obtain ⟨sn, sdt, sw, hscanS⟩ := scanPolicies_found SCALING_POLICY ps hwf
    (List.countP_pos_iff.mp (by rw [hscal]; omega))
  have hconv : convertToHeatMonitoringResource aw vnf heatTemplate topo
      = .ok (Val.map [("type", Val.str "OS::Aodh::Alarm"),
             ("properties", Val.map (setKey props "matching_metadata"
               (Val.map [("metadata.user_metadata.vnf_id", vnf.id)])))], sub2) := by
    rw [convertToHeatMonitoringResource]
    simp only [hprops, htopo, hscanS, hsub]
    rfl
  obtain ⟨hes, hrs, hshape1, hshape2⟩ :=
    setVDU1Metadata_shape heatTemplate _ sub2 hsub
  refine ⟨.map (setKey hes "resources" (.map (dictUpdate hrs
      [(an, Val.map [("type", Val.str "OS::Aodh::Alarm"),
        ("properties", Val.map (setKey props "matching_metadata"
          (Val.map [("metadata.user_metadata.vnf_id", vnf.id)])))])]))),
    ?_, ?_, setVDU1Metadata_path _ _ _ hsub⟩
  · rw [generateHotAlarmResource]
    simp only [htopo, hscan, hconv]
    subst hshape1
    rw [updateResources]
    simp only [hshape2]
  · simp [getPath, dGet_setKey_self, dGet]

/-- C6 witness: the theorem applied to a concrete one-scaling/one-alarming
topology; both correlation sides carry the identity `vnf-1`. -/
theorem alarm_metadata_round_trip_witness :
    ∃ heat2 : Val,
      generateHotAlarmResource c6topo c6heat ⟨.str "vnf-1", []⟩
        = .ok (true,
               [("vdu1_cpu_usage_monitoring_policy",
                 Val.map [("type", Val.str "OS::Aodh::Alarm"),
                  ("properties", Val.map (setKey
                    [("meter_name", .str "cpu_util"),
                     ("comparison_operator", .str "gt"), ("period", .int 600),
                     ("evaluation_periods", .int 1), ("statistic", .str "avg"),
                     ("description", .str "utilization greater_than 50%"),
                     ("threshold", .int 50),
                     ("alarm_actions", .list [.str "None"])] "matching_metadata"
                    (Val.map [("metadata.user_metadata.vnf_id", .str "vnf-1")])))])],
               heat2, .map [("resources", .map [("VDU1", .map
                 [("type", .str "OS::Nova::Server"),
                  ("properties", .map [("image", .str "img1"),
                    ("metadata", .map [("metering.vnf_id", .str "vnf-1")])])])])])
      ∧ getPath (Val.map [("type", Val.str "OS::Aodh::Alarm"),
            ("properties", Val.map (setKey
              [("meter_name", .str "cpu_util"),
               ("comparison_operator", .str "gt"), ("period", .int 600),
               ("evaluation_periods", .int 1), ("statistic", .str "avg"),
               ("description", .str "utilization greater_than 50%"),
               ("threshold", .int 50),
               ("alarm_actions", .list [.str "None"])] "matching_metadata"
              (Val.map [("metadata.user_metadata.vnf_id", .str "vnf-1")])))])
          ["properties", "matching_metadata"]
          = some (.map [("metadata.user_metadata.vnf_id", .str "vnf-1")])
      ∧ getPath (.map [("resources", .map [("VDU1", .map
            [("type", .str "OS::Nova::Server"),
             ("properties", .map [("image", .str "img1"),
               ("metadata", .map [("metering.vnf_id", .str "vnf-1")])])])])])
          ["resources", "VDU1", "properties", "metadata"]
          = some (.map [("metering.vnf_id", .str "vnf-1")]) :=
  alarm_metadata_round_trip
    [.map [("SP1", .map [("type", .str SCALING_POLICY),
                         ("properties", .map c1pol)])],
     .map [("vdu1_cpu_usage_monitoring_policy", c6alarmBody)]]
    c6topo ⟨.str "vnf-1", []⟩ c6heat
    "vdu1_cpu_usage_monitoring_policy" c6alarmBody
    (.map [("vdu1_cpu_usage_monitoring_policy", c6alarmBody)])
    [("meter_name", .str "cpu_util"), ("comparison_operator", .str "gt"),
     ("period", .int 600), ("evaluation_periods", .int 1),
     ("statistic", .str "avg"),
     ("description", .str "utilization greater_than 50%"),
     ("threshold", .int 50), ("alarm_actions", .list [.str "None"])]
    (.map [("resources", .map [("VDU1", .map
      [("type", .str "OS::Nova::Server"),
       ("properties", .map [("image", .str "img1"),
         ("metadata", .map [("metering.vnf_id", .str "vnf-1")])])])])])
    rfl (by decide) rfl rfl rfl rfl rfl

/-- C8 witness: the theorem applied to a one-unit descriptor whose unit has a
lone `user_data` field — the whole legacy translation fails with the
incomplete-user-data condition. -/
theorem user_data_pair_or_neither_witness :
    generateHotFromLegacy [] false none [("vdus", .map [("VDU1", .map c8vdu)])] []
      = .error .userDataFormatNotFound :=
  (user_data_pair_or_neither [] legacyBaseTemplate [] [] none "VDU1" c8vdu
    (.str "img1") (.str "m1.small")
    [("heat_template_version", .str "2013-05-23"), ("outputs", .map []),
     ("resources", .map [("VDU1", .map [("type", .str "OS::Nova::Server")])])]
    c8vdu
    [("heat_template_version", .str "2013-05-23"), ("outputs", .map []),
     ("resources", .map [("VDU1", .map [("type", .str "OS::Nova::Server")])])]
    [("image", .str "img1"), ("flavor", .str "m1.small")]
    rfl rfl rfl rfl).2.2.2
    (Or.inl ⟨rfl, rfl⟩) rfl none [] rfl rfl rfl

/-- C9: in a run where scaling expansion did not occur, final assembly
writes the persisted `heat_template` attribute only when no truthy value is
already present: an existing (non-empty) persisted template is left
unchanged, and when the attribute is absent the freshly produced template
(the current `fields['template']`) is persisted. -/
theorem persisted_template_not_overwritten (topology : Entries) (vnfId : Val)
    (st : RunState) (names mainDict : Entries) (ea : Bool) (ar : Entries)
    (heat2 sub : Val)
    (hsc : generateHotScaling topology "scaling.yaml" = .ok (false, names, mainDict))
    (hal : generateHotAlarmResource topology st.heatTemplateYaml ⟨vnfId, st.vnfAttrs⟩
             = .ok (ea, ar, heat2, sub)) :
    (∀ s : Val, dGet st.vnfAttrs "heat_template" = some s → truthy s = true →
       ∃ st2, handleScaling topology vnfId st = .ok st2
         ∧ dGet st2.vnfAttrs "heat_template" = some s)
    ∧ (dGet st.vnfAttrs "heat_template" = none →
       ∀ ft : Val, dGet st.fields "template" = some ft →
       ∃ st2, handleScaling topology vnfId st = .ok st2
         ∧ dGet st2.vnfAttrs "heat_template" = some (if ea then heat2 else ft)) := by
  constructor
  · intro s hs htr
    have hrun : ∃ st2, handleScaling topology vnfId st = .ok st2
        ∧ st2.vnfAttrs = st.vnfAttrs := by
      rw [handleScaling]
      simp only [hsc, hal]
      rw [if_neg (by simp : ¬ false = true)]
      rw [if_neg (by rw [hs]; simp [truthyOpt, htr])]
      exact ⟨_, rfl, rfl⟩
    obtain ⟨st2, h1, h2⟩ := hrun
    exact ⟨st2, h1, by rw [h2]; exact hs⟩
  · intro habs ft hft
    cases ea with
    | true =>
      have hrun : ∃ st2, handleScaling topology vnfId st = .ok st2
          ∧ st2.vnfAttrs = setKey st.vnfAttrs "heat_template" heat2 := by
        rw [handleScaling]
        simp only [hsc, hal]
        rw [if_neg (by simp : ¬ false = true)]
        rw [if_pos (by rw [habs]; simp [truthyOpt])]
        simp [need, dGet_setKey_self]
        try exact ⟨_, rfl, rfl⟩
      obtain ⟨st2, h1, h2⟩ := hrun
      exact ⟨st2, h1, by rw [h2, dGet_setKey_self]; rfl⟩
    | false =>
      have hrun : ∃ st2, handleScaling topology vnfId st = .ok st2
          ∧ st2.vnfAttrs = setKey st.vnfAttrs "heat_template" ft := by
        rw [handleScaling]
        simp only [hsc, hal]
        rw [if_neg (by simp : ¬ false = true)]
        rw [if_pos (by rw [habs]; simp [truthyOpt])]
        simp [need, hft]
        try exact ⟨_, rfl, rfl⟩
      obtain ⟨st2, h1, h2⟩ := hrun
      exact ⟨st2, h1, by rw [h2, dGet_setKey_self]; rfl⟩

/-- C9 witness: the theorem applied to a run with an alarm policy and no
scaling policy: the persisted template `"OLD"` survives final assembly. -/
theorem persisted_template_not_overwritten_witness :
    (handleScaling c9topo (.str "vnf-1")
        ⟨[("template", .str "flat")], [("heat_template", .str "OLD")], c6heat⟩).map
      (fun st2 => dGet st2.vnfAttrs "heat_template")
      = .ok (some (.str "OLD")) := by
  obtain ⟨st2, h1, h2⟩ :=
    (persisted_template_not_overwritten c9topo (.str "vnf-1")
      ⟨[("template", .str "flat")], [("heat_template", .str "OLD")], c6heat⟩
      []
      (setKey (setKey (setKey heatTemplateBase "description"
          (.str "Tacker scaling template")) "parameters" (.map []))
        "resources" (.map []))
      true
      [("vdu1_cpu_usage_monitoring_policy", c9hot)]
      (.map [("resources", .map
        [("VDU1", .map [("type", .str "OS::Nova::Server"),
           ("properties", .map [("image", .str "img1")])]),
         ("vdu1_cpu_usage_monitoring_policy", c9hot)])])
      c6heat
      rfl rfl).1 (.str "OLD") rfl rfl
  rw [h1]
  simp only [Except.map]
  rw [h2]

end TT
